import Mathlib

/-!
Verification of the DroneFleet simulation core against its specification.

This file shallowly embeds the Python modules `src/simulation/weather.py`,
`src/simulation/route.py`, `src/simulation/drone.py` and
`src/simulation/fleet.py` into Lean.  Conventions used throughout:

* Geographic coordinates, grid resolutions, payloads and timestamps are
  rationals (`ℚ`); Python floats produced by transcendental functions
  (Haversine distances, weather interpolation weights, battery levels,
  scores) are real numbers (`ℝ`).  Machine rounding of IEEE floats is not
  modelled; arithmetic is exact.
* Python `datetime` values are modelled as rational timestamps measured in
  seconds; `timedelta.total_seconds()` is subtraction.
* Python dictionaries are association lists; `d[k] = v` is modelled by
  prepending `(k, v)` and lookup takes the most recent binding, matching
  overwrite semantics.  Iteration order is only relied on where the claims
  need it (insertion order of the drones table).
* Functions that can raise in Python (`ZeroDivisionError`, `KeyError`)
  return `Except PyError _`; functions whose callers cannot observe an
  exception stay total.
* `random.*` and `uuid.uuid4()` are modelled by explicit parameters, and
  `datetime.now()` by an explicit `now` argument, so all definitions are
  deterministic.
* Unbounded `while` loops are modelled with an explicit fuel parameter;
  `none` means the fuel was exhausted while the Python loop would still be
  running.
-/

namespace DroneFleet

open Classical

/-- A latitude/longitude pair in degrees, as in the Python `(lat, lon)`
tuples. -/
abbrev Point : Type := ℚ × ℚ

/-- Python's `math.atan2`, on exact reals. -/
noncomputable def atan2 (y x : ℝ) : ℝ :=
  if 0 < x then Real.arctan (y / x)
  else if x < 0 ∧ 0 ≤ y then Real.arctan (y / x) + Real.pi
  else if x < 0 then Real.arctan (y / x) - Real.pi
  else if 0 < y then Real.pi / 2
  else if y < 0 then -(Real.pi / 2)
  else 0

/-- Python's `math.radians`: degrees to radians. -/
noncomputable def radians (x : ℝ) : ℝ := x * Real.pi / 180

/-- `_calculate_distance` from `route.py`/`drone.py` (identical bodies):
Haversine distance in kilometres, Earth radius 6371 km. -/
noncomputable def haversine (p1 p2 : Point) : ℝ :=
  let lat1 : ℝ := (p1.1 : ℝ); let lon1 : ℝ := (p1.2 : ℝ)
  let lat2 : ℝ := (p2.1 : ℝ); let lon2 : ℝ := (p2.2 : ℝ)
  let dlat := radians (lat2 - lat1)
  let dlon := radians (lon2 - lon1)
  let a := Real.sin (dlat / 2) * Real.sin (dlat / 2) +
    Real.cos (radians lat1) * Real.cos (radians lat2) *
      (Real.sin (dlon / 2) * Real.sin (dlon / 2))
  let c := 2 * atan2 (Real.sqrt a) (Real.sqrt (1 - a))
  6371 * c

/-- `WeatherCondition` from `weather.py` (the eight-field dataclass; the
four-field duplicate in `route.py` is never instantiated on the flows the
claims exercise, route code only reads the three shared fields). -/
structure WeatherCondition where
  temperature : ℝ
  wind_speed : ℝ
  wind_direction : ℝ
  precipitation : ℝ
  visibility : ℝ
  pressure : ℝ
  turbulence : ℝ
  cloud_coverage : ℝ

namespace WeatherCondition

/-- `_calculate_wind_safety`. -/
noncomputable def windSafety (w : WeatherCondition) : ℝ :=
  max 0 (1 - w.wind_speed / 15)

/-- `_calculate_visibility_safety`. -/
noncomputable def visibilitySafety (w : WeatherCondition) : ℝ :=
  min 1 (max 0 ((w.visibility - 2) / 8))

/-- `_calculate_precipitation_safety`. -/
noncomputable def precipitationSafety (w : WeatherCondition) : ℝ :=
  max 0 (1 - w.precipitation / 10)

/-- The four per-factor safety scores, in the dictionary order of
`is_safe_for_flight`: wind, visibility, precipitation, turbulence. -/
noncomputable def safetyScores (w : WeatherCondition) : List ℝ :=
  [w.windSafety, w.visibilitySafety, w.precipitationSafety, 1 - w.turbulence]

/-- `is_safe_for_flight(min_safety_threshold=0.7)`: the overall safety is
the mean of the four sub-scores; safe iff it is at least the threshold.
Returns the verdict and the scores, as the Python tuple does. -/
noncomputable def isSafeForFlight (w : WeatherCondition)
    (min_safety_threshold : ℝ := 7/10) : Prop × List ℝ :=
  (w.safetyScores.sum / 4 ≥ min_safety_threshold, w.safetyScores)

end WeatherCondition

/-- The all-zero condition that `_interpolate_conditions` produces when no
surrounding grid point holds data. -/
def zeroCondition : WeatherCondition := ⟨0, 0, 0, 0, 0, 0, 0, 0⟩

/-- Association-list lookup modelling Python `dict` access: the most recent
binding (stored at the head) wins. -/
def alookup {κ α : Type _} [DecidableEq κ] : List (κ × α) → κ → Option α
  | [], _ => none
  | (k, v) :: t, p => if k = p then some v else alookup t p

/-- Python `del d[k]`: drops every binding of the key (shadowed bindings
model the overwrite history of a single dictionary slot). -/
def adel {κ α : Type _} [DecidableEq κ] (l : List (κ × α)) (k : κ) :
    List (κ × α) :=
  l.filter (fun e => e.1 ≠ k)

/-- In-place mutation of the object stored under a key: the value changes,
the insertion order does not. -/
def aupdate {κ α : Type _} [DecidableEq κ] (l : List (κ × α)) (k : κ)
    (v : α) : List (κ × α) :=
  l.map (fun e => if e.1 = k then (k, v) else e)

/-- Python's `round` on the exact value of a float: round half to even. -/
def roundQ (q : ℚ) : ℤ :=
  if (q - ⌊q⌋ : ℚ) < 1/2 then ⌊q⌋
  else if (q - ⌊q⌋ : ℚ) > 1/2 then ⌊q⌋ + 1
  else if Even ⌊q⌋ then ⌊q⌋ else ⌊q⌋ + 1

/-- Python's `int(x)` on the exact value of a float: truncation towards
zero. -/
def truncQ (q : ℚ) : ℤ := if 0 ≤ q then ⌊q⌋ else ⌈q⌉

/-- Python's `range(a, b)` over machine integers. -/
def intRange (a b : ℤ) : List ℤ := (List.range (b - a).toNat).map (a + ·)

/-- State of `WeatherSimulator`: region bounds, grid resolution,
`current_conditions` and `forecast_data` (forecast timestamps are rational
seconds).  `_initialize_weather`/`update_conditions` populate these with
randomized values; the claims are settled for arbitrary stored contents,
so the random streams do not appear here. -/
structure WeatherState where
  region_bounds : Point × Point
  grid_resolution : ℚ
  current_conditions : List (Point × WeatherCondition)
  forecast_data : List (ℚ × List (Point × WeatherCondition))

namespace WeatherState

/-- The four grid points `_interpolate_conditions` consults for a query
position: the componentwise round-to-grid point and its positive
neighbours (this is the code's stencil; it is not always the four cells
surrounding the query). -/
def stencil (res : ℚ) (pos : Point) : List Point :=
  let grid_lat := (roundQ (pos.1 / res) : ℚ) * res
  let grid_lon := (roundQ (pos.2 / res) : ℚ) * res
  [(grid_lat, grid_lon), (grid_lat + res, grid_lon),
   (grid_lat, grid_lon + res), (grid_lat + res, grid_lon + res)]

/-- The raw inverse-distance weights `1 / (distance + 1e-6)` of
`_interpolate_conditions`, before normalization.  Distances are Euclidean
in degree space (`math.sqrt` of the coordinate differences). -/
noncomputable def rawWeight (pos : Point) (p : Point) : ℝ :=
  1 / (Real.sqrt (((pos.1 : ℝ) - (p.1 : ℝ))^2 + ((pos.2 : ℝ) - (p.2 : ℝ))^2)
        + 1e-6)

/-- The total raw weight over the stencil (the normalization
denominator of `_interpolate_conditions`). -/
noncomputable def totalWeight (st : WeatherState) (pos : Point) : ℝ :=
  ((stencil st.grid_resolution pos).map (rawWeight pos)).sum

/-- The per-field accumulation loop of `_interpolate_conditions`: each
stored stencil point contributes `field × normalized weight`; absent
points are skipped (contribute zero) although their raw weights still
entered the normalization total. -/
noncomputable def interpField (st : WeatherState) (pos : Point)
    (conditions_dict : List (Point × WeatherCondition))
    (f : WeatherCondition → ℝ) : ℝ :=
  ((stencil st.grid_resolution pos).map (fun p =>
    match alookup conditions_dict p with
    | some c => f c * (rawWeight pos p / totalWeight st pos)
    | none => 0)).sum

/-- `_interpolate_conditions`: normalized inverse-distance weighting over
the four stencil points. -/
noncomputable def interpolateConditions (st : WeatherState) (pos : Point)
    (conditions_dict : List (Point × WeatherCondition)) : WeatherCondition :=
  let acc := interpField st pos conditions_dict
  { temperature := acc (·.temperature)
    wind_speed := acc (·.wind_speed)
    wind_direction := acc (·.wind_direction)
    precipitation := acc (·.precipitation)
    visibility := acc (·.visibility)
    pressure := acc (·.pressure)
    turbulence := acc (·.turbulence)
    cloud_coverage := acc (·.cloud_coverage) }

/-- `get_conditions(position, time)`.  With no `time` it interpolates the
current grid unconditionally (there is no bounds check); with a `time` it
returns `None` when no forecast exists, else interpolates the snapshot at
the timestamp minimizing `|t - time|` (first in iteration order among
ties, as Python's `min` is). -/
noncomputable def getConditions (st : WeatherState) (pos : Point)
    (time : Option ℚ) : Option WeatherCondition :=
  match time with
  | none => some (st.interpolateConditions pos st.current_conditions)
  | some t =>
    match st.forecast_data with
    | [] => none
    | f :: fs =>
      let nearest := (f :: fs).foldl
        (fun best x => if |x.1 - t| < |best.1 - t| then x else best) f
      some (st.interpolateConditions pos nearest.2)

/-- `get_safe_altitude`. -/
noncomputable def getSafeAltitude (st : WeatherState) (pos : Point)
    (time : Option ℚ := none) : ℝ :=
  match st.getConditions pos time with
  | none => 100
  | some c =>
    100 + max 0 (c.wind_speed - 5) * 10 + max 0 (10 - c.visibility) * 20 +
      c.turbulence * 50

/-- One entry of the list `get_flight_risks` builds. -/
structure RiskEntry where
  position : Point
  time : ℚ
  is_safe : Prop
  safety_scores : List ℝ

/-- `get_flight_risks(route, start_time)`: one entry per route point whose
conditions lookup succeeds, two minutes apart. -/
noncomputable def getFlightRisks (st : WeatherState) (route : List Point)
    (start_time : ℚ) : List RiskEntry :=
  (route.enum.filterMap (fun pi =>
    let estimated := start_time + (pi.1 : ℚ) * 120
    match st.getConditions pi.2 (some estimated) with
    | none => none
    | some c =>
      some ⟨pi.2, estimated, (c.isSafeForFlight).1, (c.isSafeForFlight).2⟩))

end WeatherState

/-! ## Route optimizer (`route.py`) -/

/-- A point of a planned route (`RoutePoint`). -/
structure RoutePoint where
  position : Point
  altitude : ℝ
  time : ℚ
  weather : Option WeatherCondition := none

/-- Configuration of `RouteOptimizer.__init__`. -/
structure RouteOptimizer where
  no_fly_zones : List (List Point) := []
  min_altitude : ℚ := 100
  max_altitude : ℚ := 400
  safety_margin : ℚ := 50
  grid_size : ℚ := 1/1000

/-- Inner loop of `point_in_polygon`: `p1` is the previous vertex, the
list holds the remaining `p2` vertices (`polygon[i % n]` for
`i in range(n+1)`).  When the guards pass, `p1y ≠ p2y` necessarily holds
(otherwise the `y` window `min < y ≤ max` is empty), so `xinters` is
always freshly assigned before the toggle test reads it; the stale-binding
path of the Python code is dead and is not modelled. -/
def pipGo (x y : ℚ) : Point → Bool → List Point → Bool
  | _, inside, [] => inside
  | p1, inside, p2 :: rest =>
    let inside' :=
      if y > min p1.2 p2.2 ∧ y ≤ max p1.2 p2.2 ∧ x ≤ max p1.1 p2.1 then
        let xinters := (y - p1.2) * (p2.1 - p1.1) / (p2.2 - p1.2) + p1.1
        if p1.1 = p2.1 ∨ x ≤ xinters then !inside else inside
      else inside
    pipGo x y p2 inside' rest

/-- `point_in_polygon` inside `_is_in_no_fly_zone`: even-odd ray casting.
The iteration visits `polygon[i % n]` for `i in range(n+1)`, i.e. the
vertex list followed by the first vertex again (the first step is the
degenerate edge `polygon[0] → polygon[0]`, which never toggles).  An empty
polygon would raise `IndexError` in Python and does not occur. -/
def pointInPolygon (x y : ℚ) (polygon : List Point) : Bool :=
  match polygon with
  | [] => false
  | p0 :: _ => pipGo x y p0 false (polygon ++ [p0])

/-- `_is_in_no_fly_zone`. -/
def isInNoFlyZone (zones : List (List Point)) (point : Point) : Bool :=
  zones.any (fun zone => pointInPolygon point.1 point.2 zone)

/-- `get_neighbors` of `_a_star_search`: the eight grid-step moves, in the
nested-loop order of the Python code, filtered by the no-fly check. -/
def getNeighbors (opt : RouteOptimizer) (pos : Point) : List Point :=
  ([-opt.grid_size, 0, opt.grid_size].flatMap fun dlat =>
    ([-opt.grid_size, 0, opt.grid_size].filterMap fun dlon =>
      if dlat = 0 ∧ dlon = 0 then none
      else
        let new_pos := (pos.1 + dlat, pos.2 + dlon)
        if isInNoFlyZone opt.no_fly_zones new_pos then none else some new_pos))

/-- An entry of the `heapq` priority queue: an f-score paired with a
point, compared lexicographically exactly as Python compares the tuples
`(f, (lat, lon))`. -/
abbrev HeapItem : Type := ℝ × Point

/-- The strict order in which `heapq` compares its items. -/
def itemLt (a b : HeapItem) : Prop :=
  a.1 < b.1 ∨ (a.1 = b.1 ∧ (a.2.1 < b.2.1 ∨ (a.2.1 = b.2.1 ∧ a.2.2 < b.2.2)))

open Classical in
/-- The least item of `x :: xs`: `heapq.heappop` returns a minimal item of
the heap (equal tuples are equal values, so which physical copy is popped
is unobservable). -/
noncomputable def minItem (x : HeapItem) (xs : List HeapItem) : HeapItem :=
  xs.foldl (fun m a => if itemLt a m then a else m) x

open Classical in
/-- Removes the first copy of the popped item from the heap list. -/
noncomputable def eraseItem : List HeapItem → HeapItem → List HeapItem
  | [], _ => []
  | a :: t, b => if a = b then t else a :: eraseItem t b

/-- Mutable state of the `_a_star_search` loop.  `came_from`, `g_score`
and `f_score` are dictionaries (most recent binding first); `closed_set`
is kept as a duplicate-free list in insertion order, which the
reconstruction bound below exploits. -/
structure AState where
  openSet : List HeapItem
  cameFrom : List (Point × Point)
  gScore : List (Point × ℝ)
  fScore : List (Point × ℝ)
  closedSet : List Point

/-- Loop body of `_reconstruct_path`: follows `came_from` bindings,
appending each parent.  The fuel argument only caps the iteration count of
the Python `while current in came_from` loop; `reconstructPath` passes a
bound that the verified invariant (parents strictly earlier in
`closed_set` insertion order) shows is never reached. -/
def reconstructGo : ℕ → List (Point × Point) → Point → List Point → List Point
  | 0, _, _, path => path
  | n + 1, cf, current, path =>
    match alookup cf current with
    | none => path
    | some q => reconstructGo n cf q (path ++ [q])

/-- `_reconstruct_path`: builds `[current, parent, ...]` and reverses it.
`closed` is passed only to size the fuel (`came_from` chains never repeat
a key, see `reconstructGo`). -/
def reconstructPath (cf : List (Point × Point)) (closed : List Point)
    (current : Point) : List Point :=
  (reconstructGo (closed.length + 1) cf current [current]).reverse

open Classical in
/-- One neighbor step of the `for neighbor in get_neighbors(current)`
loop.  `g_score[current]` is present whenever the loop runs (every queued
point has a g-score); `getD 0` stands for the lookup Python performs. -/
noncomputable def processNeighbor (opt : RouteOptimizer) (endP current : Point)
    (st : AState) (neighbor : Point) : AState :=
  if neighbor ∈ st.closedSet then st
  else
    let tg := (alookup st.gScore current).getD 0 + haversine current neighbor
    let better := match alookup st.gScore neighbor with
      | none => True
      | some gn => tg < gn
    if better then
      let fv := tg + haversine neighbor endP
      { st with
        cameFrom := (neighbor, current) :: st.cameFrom
        gScore := (neighbor, tg) :: st.gScore
        fScore := (neighbor, fv) :: st.fScore
        openSet := st.openSet ++ [(fv, neighbor)] }
    else st

/-- One iteration of the `while open_set` loop of `_a_star_search`.
`Sum.inl` is a `return` (goal reached, or failure `[]` when the queue is
empty); `Sum.inr` continues with the next state. -/
noncomputable def aStarStep (opt : RouteOptimizer) (endP : Point)
    (st : AState) : List Point ⊕ AState :=
  match st.openSet with
  | [] => Sum.inl []
  | x :: xs =>
    let item := minItem x xs
    let rest := eraseItem (x :: xs) item
    let current := item.2
    if haversine current endP < (opt.grid_size : ℝ) then
      Sum.inl (reconstructPath st.cameFrom st.closedSet current)
    else
      let closed' :=
        if current ∈ st.closedSet then st.closedSet
        else st.closedSet ++ [current]
      Sum.inr ((getNeighbors opt current).foldl
        (processNeighbor opt endP current)
        { st with openSet := rest, closedSet := closed' })

/-- The `while open_set` loop, with fuel; `none` means the fuel ran out
while the Python loop would still be iterating. -/
noncomputable def aStarLoop (opt : RouteOptimizer) (endP : Point) :
    ℕ → AState → Option (List Point)
  | 0, _ => none
  | n + 1, st =>
    match aStarStep opt endP st with
    | Sum.inl r => some r
    | Sum.inr st' => aStarLoop opt endP n st'

/-- Initial loop state of `_a_star_search`: the queue holds `(0, start)`
(priority literally `0`, not the f-score). -/
noncomputable def aStarInit (opt : RouteOptimizer) (start endP : Point) :
    AState :=
  ⟨[(0, start)], [], [(start, 0)], [(start, haversine start endP)], []⟩

/-- `_a_star_search(start, end)`. -/
noncomputable def aStarSearch (opt : RouteOptimizer) (fuel : ℕ)
    (start endP : Point) : Option (List Point) :=
  aStarLoop opt endP fuel (aStarInit opt start endP)

/-- `_calculate_optimal_altitude`: starts at `min_altitude` and, for every
no-fly zone whose nearest vertex is within 1 km, raises the altitude; the
Python `min(...)` over an empty zone would raise and does not occur (zones
are non-empty polygons). -/
noncomputable def calculateOptimalAltitude (opt : RouteOptimizer)
    (point : Point) : ℝ :=
  opt.no_fly_zones.foldl
    (fun altitude zone =>
      match zone.map (fun zp => haversine point zp) with
      | [] => altitude
      | d :: ds =>
        let min_distance := ds.foldl min d
        if min_distance < 1 then
          min (opt.max_altitude : ℝ)
            (altitude + (1 - min_distance) * (opt.safety_margin : ℝ))
        else altitude)
    (opt.min_altitude : ℝ)

/-- `_create_altitude_profile`: every point is stamped with the same
`datetime.now()` timestamp. -/
noncomputable def createAltitudeProfile (opt : RouteOptimizer)
    (path : List Point) (now : ℚ) : List RoutePoint :=
  path.map (fun point =>
    { position := point, altitude := calculateOptimalAltitude opt point
      time := now })

/-- `_get_nearest_weather`: value at the key nearest (by Haversine) to the
position; `None` on an empty dictionary.  Python's `min` keeps the first
of equally-near keys. -/
noncomputable def getNearestWeather (opt : RouteOptimizer) (position : Point)
    (weather_data : List (Point × WeatherCondition)) :
    Option WeatherCondition :=
  match weather_data with
  | [] => none
  | w :: ws =>
    let nearest := (w :: ws).foldl
      (fun best x =>
        if haversine position x.1 < haversine position best.1 then x else best)
      w
    some nearest.2

/-- `_adjust_altitude_for_weather`. -/
noncomputable def adjustAltitudeForWeather (opt : RouteOptimizer)
    (current_altitude : ℝ) (weather : WeatherCondition) : ℝ :=
  let a1 := if weather.wind_speed > 10
    then current_altitude + min 50 (weather.wind_speed * 2)
    else current_altitude
  let a2 := if weather.visibility < 5
    then a1 + (5 - weather.visibility) * 20
    else a1
  let a3 := if weather.precipitation > 0
    then a2 + min 30 (weather.precipitation * 5)
    else a2
  max (opt.min_altitude : ℝ) (min (opt.max_altitude : ℝ) a3)

/-- `_optimize_for_weather`: rebuilds each point with adjusted altitude
and its nearest weather; a point whose weather lookup fails (only possible
on an empty dictionary) is dropped. -/
noncomputable def optimizeForWeather (opt : RouteOptimizer)
    (route_points : List RoutePoint)
    (weather_data : List (Point × WeatherCondition)) : List RoutePoint :=
  route_points.filterMap (fun point =>
    match getNearestWeather opt point.position weather_data with
    | none => none
    | some weather =>
      some { position := point.position
             altitude := adjustAltitudeForWeather opt point.altitude weather
             time := point.time
             weather := some weather })

/-- `_can_skip_point`. -/
noncomputable def canSkipPoint (opt : RouteOptimizer)
    (prev current next_point : RoutePoint) : Prop :=
  ¬ isInNoFlyZone opt.no_fly_zones current.position = true ∧
    |prev.altitude - next_point.altitude| ≤ (opt.safety_margin : ℝ)

open Classical in
/-- The `while current_idx < len(route_points) - 1` loop of
`_smooth_path`: `prev` is the last point kept, the list argument is
`route_points[current_idx:]`; the final singleton is the last point, which
the loop never examines and the epilogue appends. -/
noncomputable def smoothGo (opt : RouteOptimizer) :
    RoutePoint → List RoutePoint → List RoutePoint
  | _, [] => []
  | _, [lastP] => [lastP]
  | prev, current :: next_point :: rest =>
    if canSkipPoint opt prev current next_point then
      smoothGo opt prev (next_point :: rest)
    else
      current :: smoothGo opt current (next_point :: rest)

/-- `_smooth_path`. -/
noncomputable def smoothPath (opt : RouteOptimizer)
    (route_points : List RoutePoint) : List RoutePoint :=
  match route_points with
  | [] => []
  | [a] => [a]
  | [a, b] => [a, b]
  | a :: rest => a :: smoothGo opt a rest

/-- `calculate_route(start, end, weather_data)`.  A `None` weather
argument and an empty dictionary are both falsy in
`if weather_data:`, so both are the empty list here.  The result is
`none` when the fuel for the A* loop runs out, `some []` when A* finds no
path (`return []`), else the smoothed route. -/
noncomputable def calculateRoute (opt : RouteOptimizer) (fuel : ℕ)
    (start endP : Point) (weather_data : List (Point × WeatherCondition))
    (now : ℚ) : Option (List RoutePoint) :=
  match aStarSearch opt fuel start endP with
  | none => none
  | some [] => some []
  | some (p :: ps) =>
    let route_points := createAltitudeProfile opt (p :: ps) now
    let route_points' :=
      if weather_data.isEmpty then route_points
      else optimizeForWeather opt route_points weather_data
    some (smoothPath opt route_points')

/-! ## Drone state (`drone.py`) -/

/-- `DroneStatus`. -/
inductive DroneStatus where
  | idle | in_transit | delivering | returning | charging | maintenance
  | emergency
deriving DecidableEq

/-- `DroneSpecification`. -/
structure DroneSpecification where
  model : String
  max_speed : ℚ
  max_battery_life : ℚ
  max_payload : ℚ
  charging_time : ℚ
  max_altitude : ℚ
  min_altitude : ℚ
  max_wind_speed : ℚ
  max_precipitation : ℚ
  battery_capacity : ℚ
  power_consumption_rate : ℚ
  emergency_reserve : ℚ

/-- The default specification built in `Drone.__init__`. -/
def defaultSpecification : DroneSpecification :=
  { model := "DJI-X1", max_speed := 20, max_battery_life := 30
    max_payload := 5/2, charging_time := 20, max_altitude := 400
    min_altitude := 50, max_wind_speed := 15, max_precipitation := 5
    battery_capacity := 500, power_consumption_rate := 100
    emergency_reserve := 20 }

/-- The `current_delivery` dictionary (set by the spec-modelled
`start_delivery`). -/
structure CurrentDelivery where
  destination : Point
  payload_weight : ℚ

/-- The dictionary passed as `weather_conditions` to `update_position`;
absent keys make `weather.get(key, 0)` fall back to `0`.  An empty
dictionary is falsy in `if weather_conditions ...`, exactly like `None`,
so the `Option` wrapping in `updatePosition` covers both. -/
structure WeatherArg where
  wind_speed : Option ℝ := none
  precipitation : Option ℝ := none

/-- One `_record_telemetry` entry. -/
structure TelemetryEntry where
  timestamp : ℚ
  position : Point
  altitude : ℝ
  battery_level : ℝ
  status : DroneStatus
  maintenance_score : ℝ
  component_health : List (String × ℝ)

/-- Mutable state of a `Drone`.  `uuid.uuid4()` is modelled by taking the
id as a construction parameter. -/
structure Drone where
  id : String
  position : Point
  specification : DroneSpecification := defaultSpecification
  battery_level : ℝ := 100
  status : DroneStatus := .idle
  altitude : ℝ := 100
  heading : ℚ := 0
  speed : ℚ := 0
  maintenance_score : ℝ := 100
  component_health : List (String × ℝ) :=
    [("motors", 100), ("battery", 100), ("propellers", 100),
     ("controllers", 100), ("sensors", 100)]
  current_delivery : Option CurrentDelivery := none
  telemetry_history : List TelemetryEntry := []
  last_updated : ℚ
  last_position : Point
  emergency_status : Option String := none
  total_flight_hours : ℝ := 0
  last_maintenance : ℚ

namespace Drone

/-- `_is_safe_altitude`. -/
noncomputable def isSafeAltitude (d : Drone) (altitude : ℝ) : Prop :=
  (d.specification.min_altitude : ℝ) ≤ altitude ∧
    altitude ≤ (d.specification.max_altitude : ℝ)

/-- `_is_safe_weather`: the gate `update_position` applies to its weather
argument — plain thresholds on wind speed and precipitation from the
specification, not the weighted-average score of
`WeatherCondition.is_safe_for_flight`. -/
noncomputable def isSafeWeather (d : Drone) (weather : WeatherArg) : Prop :=
  weather.wind_speed.getD 0 ≤ (d.specification.max_wind_speed : ℝ) ∧
    weather.precipitation.getD 0 ≤ (d.specification.max_precipitation : ℝ)

/-- `_calculate_power_consumption(distance, altitude, weather)` (the
private method; total on the division-free inputs `updatePosition` feeds
it, see `updatePositionRaises` for the division-by-zero cases). -/
noncomputable def calcPowerConsumption (d : Drone) (distance altitude : ℝ)
    (weather : Option WeatherArg) : ℝ :=
  let power := distance * (d.specification.power_consumption_rate : ℝ)
  let power := power * (1 + altitude / 1000 * (1/10))
  let power := match weather with
    | some w =>
      power * (1 + w.wind_speed.getD 0 / (d.specification.max_wind_speed : ℝ)
                * (2/10))
    | none => power
  match d.current_delivery with
  | some cd =>
    power * (1 + (cd.payload_weight : ℝ) / (d.specification.max_payload : ℝ)
              * (3/10))
  | none => power

/-- `_has_sufficient_power`. -/
noncomputable def hasSufficientPower (d : Drone) (power_needed : ℝ) : Prop :=
  d.battery_level - power_needed ≥ (d.specification.emergency_reserve : ℝ)

/-- `_initiate_weather_safety_protocol`. -/
def initiateWeatherSafetyProtocol (d : Drone) : Drone :=
  { d with emergency_status := some "Unsafe weather", status := .emergency }

/-- `_initiate_low_battery_protocol`. -/
def initiateLowBatteryProtocol (d : Drone) : Drone :=
  { d with emergency_status := some "Low battery", status := .emergency }

/-- `_update_component_health(distance_traveled)`.  The method runs right
after `self.last_updated = datetime.now()`, so its own `datetime.now()`
reads back (modulo microseconds, which the model collapses) the same
instant and `flight_time` is zero; the wear factor reduces to the distance
term and the sinusoidal `random_wear` of the unchanged
`total_flight_hours`. -/
noncomputable def updateComponentHealth (d : Drone) (distance_traveled : ℝ)
    (now : ℚ) : Drone :=
  let flight_time := ((now : ℝ) - (d.last_updated : ℝ)) / 3600
  let total' := d.total_flight_hours + flight_time
  let wear_factor := distance_traveled * (1/100) + flight_time * (1/10)
  let random_wear := Real.sin total' * (1/10)
  let health' := d.component_health.map
    (fun c => (c.1, max 0 (c.2 - wear_factor - random_wear)))
  { d with
    total_flight_hours := total'
    component_health := health'
    maintenance_score := (health'.map (·.2)).sum / health'.length }

/-- `_record_telemetry`. -/
def recordTelemetry (d : Drone) (now : ℚ) : Drone :=
  let t : TelemetryEntry :=
    ⟨now, d.position, d.altitude, d.battery_level, d.status,
     d.maintenance_score, d.component_health⟩
  let hist := d.telemetry_history ++ [t]
  { d with telemetry_history := if hist.length > 1000 then hist.tail else hist }

/-- The conditions under which the body of `update_position` raises (a
`ZeroDivisionError` inside `_calculate_power_consumption`); the
surrounding `try` then sets `emergency_status`/`EMERGENCY` and returns
`False`. -/
def updatePositionRaises (d : Drone) (weather : Option WeatherArg) : Prop :=
  (weather.isSome ∧ d.specification.max_wind_speed = 0) ∨
    (d.current_delivery.isSome ∧ d.specification.max_payload = 0)

open Classical in
/-- `update_position(new_position, new_altitude, weather_conditions)`:
returns the updated drone and the success flag. -/
noncomputable def updatePosition (d : Drone) (new_position : Point)
    (new_altitude : Option ℝ) (weather : Option WeatherArg) (now : ℚ) :
    Drone × Bool :=
  let distance := haversine d.position new_position
  if h : ∃ a, new_altitude = some a ∧ ¬ d.isSafeAltitude a then
    (d, false)
  else if hw : ∃ w, weather = some w ∧ ¬ d.isSafeWeather w then
    (d.initiateWeatherSafetyProtocol, false)
  else if updatePositionRaises d weather then
    ({ d with emergency_status := some "Position update failed",
              status := .emergency }, false)
  else
    let power_consumed := d.calcPowerConsumption distance d.altitude weather
    if ¬ d.hasSufficientPower power_consumed then
      (d.initiateLowBatteryProtocol, false)
    else
      let d1 := { d with
        last_position := d.position
        position := new_position
        altitude := match new_altitude with | some a => a | none => d.altitude
        battery_level := d.battery_level - power_consumed
        last_updated := now }
      let d2 := d1.updateComponentHealth distance now
      (d2.recordTelemetry now, true)

/-- Modelled from the spec: `Drone.start_delivery` is called by
`FleetManager.assign_delivery` but is absent from the repository.  Spec
§4.5 step 6: "On selection: transition drone to IN_TRANSIT, persist the
route and an active-delivery record (destination, payload_weight,
start_time)"; the state machine of §4.4 starts deliveries from IDLE, so
the call succeeds exactly from IDLE. -/
def startDelivery (d : Drone) (destination : Point) (payload_weight : ℚ) :
    Drone × Bool :=
  if d.status = .idle then
    ({ d with status := .in_transit,
              current_delivery := some ⟨destination, payload_weight⟩ }, true)
  else (d, false)

/-- Modelled from the spec: `Drone.complete_delivery` is called by
`FleetManager.update_fleet_status` but is absent from the repository.
Spec §4.5: "If index exceeds route bounds, the delivery is complete: ...
set status back to IDLE"; the drone-side completion returns the drone to
IDLE and drops its current delivery. -/
def completeDelivery (d : Drone) : Drone :=
  { d with status := .idle, current_delivery := none }

open Classical in
/-- Modelled from the spec: `Drone.charge` is called by
`FleetManager.update_fleet_status` but is absent from the repository.
Spec §4.4: "charge rate 20%/hour; auto-returns to IDLE at ≥95%", with
battery_level bounded by 100 (§3). -/
noncomputable def charge (d : Drone) (duration_hours : ℚ) : Drone :=
  let battery' := min 100 (d.battery_level + 20 * (duration_hours : ℝ))
  { d with battery_level := battery'
           status := if battery' ≥ 95 then .idle else d.status }

/-- Modelled from the spec: `Drone.return_to_base` is called by
`FleetManager.update_fleet_status` but is absent from the repository.
Spec §4.5: "advance toward base position (reuse
RoutePlanner/update_position against the base)". -/
noncomputable def returnToBase (d : Drone) (base : Point) (now : ℚ) : Drone :=
  (d.updatePosition base none none now).1

/-- Modelled from the spec: the public
`Drone.calculate_power_consumption(distance, payload_weight)` used by
`FleetManager._calculate_route_score` is absent from the repository (only
the private three-argument `_calculate_power_consumption` exists).  Spec
§4.4 step 3: "power consumed = distance × power_consumption_rate ×
payload_factor (1 + payload_weight/max_payload ...)". -/
noncomputable def calcPowerConsumptionPub (d : Drone) (distance : ℝ)
    (payload_weight : ℚ) : ℝ :=
  distance * (d.specification.power_consumption_rate : ℝ) *
    (1 + (payload_weight : ℝ) / (d.specification.max_payload : ℝ))

end Drone

/-! ## Fleet manager (`fleet.py`) -/

/-- The Python exceptions the fleet layer can actually raise. -/
inductive PyError where
  | zeroDivision | keyError | indexError
deriving DecidableEq

/-- An `active_deliveries` record. -/
structure DeliveryRecord where
  destination : Point
  payload_weight : ℚ
  start_time : ℚ
  route : List RoutePoint

/-- State of `FleetManager`.  The background weather-update thread is not
part of the model: `update_conditions` is an operation on `WeatherState`
whose scheduling is external. -/
structure FleetState where
  drones : List (String × Drone)
  base_position : Point
  active_deliveries : List (String × DeliveryRecord)
  route_optimizer : RouteOptimizer
  weather : WeatherState
  delivery_routes : List (String × List RoutePoint)

namespace FleetState

open Classical in
/-- `get_available_drones`: status `idle` and maintenance score at least
80.  There is no battery-level condition in the code. -/
noncomputable def availableDrones (st : FleetState) : List Drone :=
  (st.drones.map (·.2)).filter
    (fun d => d.status = .idle ∧ d.maintenance_score ≥ 80)

/-- `_get_weather_data_for_route`: current conditions at every point of a
0.01°-step grid spanned by truncated hundredths of the region bounds
(`get_conditions` with no time always yields a condition, so every grid
point is stored). -/
noncomputable def weatherDataForRoute (st : FleetState) :
    List (Point × WeatherCondition) :=
  let lo := st.weather.region_bounds.1
  let hi := st.weather.region_bounds.2
  (intRange (truncQ (lo.1 * 100)) (truncQ (hi.1 * 100))).flatMap fun lat =>
    (intRange (truncQ (lo.2 * 100)) (truncQ (hi.2 * 100))).filterMap fun lon =>
      let pos : Point := ((lat : ℚ) / 100, (lon : ℚ) / 100)
      match st.weather.getConditions pos none with
      | some c => some (pos, c)
      | none => none

open Classical in
/-- `_calculate_route_score`.  `drone.calculate_power_consumption` is the
spec-modelled `calcPowerConsumptionPub` (see there).  Raises
`ZeroDivisionError` when the drone's battery level is zero or the risk
list is empty. -/
noncomputable def calcRouteScore (d : Drone) (route : List RoutePoint)
    (risks : List WeatherState.RiskEntry) (payload_weight : ℚ) :
    Except PyError ℝ :=
  let pairs := route.zip route.tail
  let estimated_power := (pairs.map (fun pq =>
    d.calcPowerConsumptionPub (haversine pq.1.position pq.2.position)
      payload_weight)).sum
  if d.battery_level = 0 then .error .zeroDivision
  else
    let battery_score := 100 * (1 - estimated_power / d.battery_level)
    if risks.length = 0 then .error .zeroDivision
    else
      let weather_score := ((risks.map (fun r =>
        if r.is_safe then (100 : ℝ) else r.safety_scores.sum * 25)).sum) /
          (risks.length : ℝ)
      let route_length := (pairs.map (fun pq =>
        haversine pq.1.position pq.2.position)).sum
      let length_score := 100 * (1 / (1 + route_length / 10))
      .ok (3/10 * d.maintenance_score + 3/10 * battery_score +
           3/10 * weather_score + 1/10 * length_score)

open Classical in
/-- The candidate loop of `assign_delivery`: carries the best
`(drone, route, score)` so far (`best_score` starts at `float('-inf')`,
which every score exceeds).  Outer `none` = route-planning fuel ran out;
`Except.error` = an uncaught Python exception. -/
noncomputable def assignLoop (st : FleetState) (fuel : ℕ)
    (destination : Point) (payload_weight : ℚ)
    (wd : List (Point × WeatherCondition)) (now : ℚ) :
    List Drone → Option (Drone × List RoutePoint × ℝ) →
    Option (Except PyError (Option (Drone × List RoutePoint)))
  | [], best => some (.ok (best.map (fun b => (b.1, b.2.1))))
  | d :: rest, best =>
    match calculateRoute st.route_optimizer fuel d.position destination wd
        now with
    | none => none
    | some [] => assignLoop st fuel destination payload_weight wd now rest best
    | some (rp :: rps) =>
      let route := rp :: rps
      let risks := st.weather.getFlightRisks (route.map (·.position)) now
      match calcRouteScore d route risks payload_weight with
      | .error e => some (.error e)
      | .ok score =>
        let better := match best with
          | none => True
          | some b => score > b.2.2
        if better then
          assignLoop st fuel destination payload_weight wd now rest
            (some (d, route, score))
        else assignLoop st fuel destination payload_weight wd now rest best

/-- `assign_delivery(destination, payload_weight)`: returns the winning
drone id (or `None`) together with the updated fleet state. -/
noncomputable def assignDelivery (st : FleetState) (fuel : ℕ)
    (destination : Point) (payload_weight : ℚ) (now : ℚ) :
    Option (Except PyError (Option String × FleetState)) :=
  let available := st.availableDrones
  if available.isEmpty then some (.ok (none, st))
  else
    let wd := st.weatherDataForRoute
    match st.assignLoop fuel destination payload_weight wd now available
        none with
    | none => none
    | some (.error e) => some (.error e)
    | some (.ok none) => some (.ok (none, st))
    | some (.ok (some (bd, broute))) =>
      let st1 := { st with
        delivery_routes := (bd.id, broute) :: st.delivery_routes }
      let res := bd.startDelivery destination payload_weight
      let st2 := { st1 with drones := aupdate st1.drones bd.id res.1 }
      if res.2 then
        let st3 := { st2 with active_deliveries :=
          (bd.id, ⟨destination, payload_weight, now, broute⟩) ::
            st2.active_deliveries }
        some (.ok (some bd.id, st3))
      else some (.ok (none, st2))

/-- Python `route[point_index]` with `int` index: non-negative indices
from the front, negative indices from the back, `IndexError` (here
`none`) outside the valid range. -/
def pyGetIdx {α : Type _} (l : List α) (i : ℤ) : Option α :=
  if 0 ≤ i then l.get? i.toNat
  else if (-i).toNat ≤ l.length then l.get? (l.length - (-i).toNat)
  else none

/-- `_handle_unsafe_weather`: raise the drone to the recommended safe
altitude when it fits under the optimizer's ceiling, else send the drone
back to base and drop its route and delivery record. -/
noncomputable def handleUnsafeWeather (opt : RouteOptimizer)
    (wst : WeatherState) (d : Drone)
    (routes : List (String × List RoutePoint))
    (active : List (String × DeliveryRecord)) :
    Drone × List (String × List RoutePoint) × List (String × DeliveryRecord) :=
  let safe_altitude := wst.getSafeAltitude d.position none
  if safe_altitude ≤ (opt.max_altitude : ℝ) then
    ({ d with altitude := safe_altitude }, routes, active)
  else
    ({ d with status := .returning }, adel routes d.id, adel active d.id)

open Classical in
/-- The `elif` chain of the `update_fleet_status` loop body, reached when
the drone is not an in-transit drone with a stored route. -/
noncomputable def tickElse (base : Point) (now : ℚ)
    (routes : List (String × List RoutePoint))
    (active : List (String × DeliveryRecord)) (drone : Drone) :
    Except PyError
      (Drone × List (String × List RoutePoint) ×
        List (String × DeliveryRecord)) :=
  if drone.status = .charging then .ok (drone.charge 1, routes, active)
  else if drone.status = .returning then
    .ok (drone.returnToBase base now, routes, active)
  else .ok (drone, routes, active)

open Classical in
/-- The per-drone body of the `for drone in self.drones.values()` loop of
`update_fleet_status`: the guard is
`drone.id in self.delivery_routes and drone.status == "in_transit"`. -/
noncomputable def tickOne (base : Point) (opt : RouteOptimizer)
    (wst : WeatherState) (now : ℚ)
    (routes : List (String × List RoutePoint))
    (active : List (String × DeliveryRecord)) (id : String)
    (drone : Drone) :
    Except PyError
      (Drone × List (String × List RoutePoint) ×
        List (String × DeliveryRecord)) :=
  match alookup routes drone.id with
  | some route =>
    if drone.status = .in_transit then
      match alookup active drone.id with
      | none => .error .keyError
      | some delivery =>
        let elapsed := now - delivery.start_time
        let point_index := truncQ (elapsed / 120)
        if point_index < (route.length : ℤ) then
          match pyGetIdx route point_index with
          | none => .error .indexError
          | some rp =>
            let new_position := rp.position
            let d1 := (drone.updatePosition new_position none none now).1
            match wst.getConditions new_position none with
            | none => .ok (d1, routes, active)
            | some c =>
              if (c.isSafeForFlight).1 then .ok (d1, routes, active)
              else .ok (handleUnsafeWeather opt wst d1 routes active)
        else
          .ok (drone.completeDelivery, adel routes drone.id,
            adel active drone.id)
    else tickElse base now routes active drone
  | none => tickElse base now routes active drone

/-- Accumulator of the `update_fleet_status` loop: processed drone
entries, current route table, current delivery table. -/
abbrev TickAcc : Type :=
  List (String × Drone) × List (String × List RoutePoint) ×
    List (String × DeliveryRecord)

/-- One `update_fleet_status` loop iteration as a fold step. -/
noncomputable def tickStep (base : Point) (opt : RouteOptimizer)
    (wst : WeatherState) (now : ℚ) (acc : TickAcc) (e : String × Drone) :
    Except PyError TickAcc := do
  let r ← tickOne base opt wst now acc.2.1 acc.2.2 e.1 e.2
  pure (acc.1 ++ [(e.1, r.1)], r.2.1, r.2.2)

/-- `update_fleet_status`: one tick over every drone, threading the route
and delivery tables through the loop. -/
noncomputable def updateFleetStatus (st : FleetState) (now : ℚ) :
    Except PyError FleetState := do
  let acc ← st.drones.foldlM
    (tickStep st.base_position st.route_optimizer st.weather now)
    ([], st.delivery_routes, st.active_deliveries)
  pure { st with drones := acc.1, delivery_routes := acc.2.1,
                 active_deliveries := acc.2.2 }

end FleetState

/-- `Drone.__init__(position)` with the default specification; the
generated uuid is the `id` parameter, `datetime.now()` is `now`. -/
def mkDrone (id : String) (position : Point) (now : ℚ) : Drone :=
  { id := id, position := position, last_updated := now
    last_position := position, last_maintenance := now }

/-- The drone-side weather dictionary carrying the fields of a
`WeatherCondition` (what a caller building the `weather_conditions`
argument from a condition would pass). -/
noncomputable def toWeatherArg (w : WeatherCondition) : WeatherArg :=
  { wind_speed := some w.wind_speed, precipitation := some w.precipitation }

/-! ## Basic facts about the geometry -/

theorem arctan_nonneg' {z : ℝ} (hz : 0 ≤ z) : 0 ≤ Real.arctan z := by
  have := Real.arctan_strictMono.monotone hz
  rwa [Real.arctan_zero] at this

theorem atan2_nonneg (y x : ℝ) (hy : 0 ≤ y) : 0 ≤ atan2 y x := by
  unfold atan2
  split_ifs with h1 h2 h3 h4 h5
  · exact arctan_nonneg' (div_nonneg hy h1.le)
  · have := Real.neg_pi_div_two_lt_arctan (y / x)
    have hpi := Real.pi_pos
    linarith
  · exact absurd ⟨h3, hy⟩ h2
  · positivity
  · exact absurd h5 (not_lt.mpr hy)
  · exact le_refl 0

theorem atan2_sqrt_scaled_nonneg (a b : ℝ) :
    0 ≤ 6371 * (2 * atan2 (Real.sqrt a) (Real.sqrt b)) := by
  have := atan2_nonneg (Real.sqrt a) (Real.sqrt b) (Real.sqrt_nonneg a)
  linarith

theorem haversine_nonneg (p q : Point) : 0 ≤ haversine p q :=
  atan2_sqrt_scaled_nonneg _ _

theorem haversine_self (p : Point) : haversine p p = 0 := by
  unfold haversine radians
  simp [Real.sqrt_eq_zero', atan2, Real.arctan_zero]

theorem haversine_equator90 :
    haversine ((0 : ℚ), (0 : ℚ)) ((0 : ℚ), (90 : ℚ)) = 6371 * Real.pi / 2 := by
  unfold haversine radians
  push_cast
  have h0 : ((0 : ℝ) - 0) * Real.pi / 180 / 2 = 0 := by ring
  have h00 : ((0 : ℝ)) * Real.pi / 180 = 0 := by ring
  have h4 : ((90 : ℝ) - 0) * Real.pi / 180 / 2 = Real.pi / 4 := by ring
  rw [h0, h00, h4, Real.sin_zero, Real.cos_zero, Real.sin_pi_div_four]
  have ha : (0 : ℝ) * 0 + 1 * 1 * (Real.sqrt 2 / 2 * (Real.sqrt 2 / 2)) =
      1 / 2 := by
    rw [div_mul_div_comm, Real.mul_self_sqrt (by norm_num : (0:ℝ) ≤ 2)]
    norm_num
  rw [ha]
  have hhalf : (1 : ℝ) - 1 / 2 = 1 / 2 := by norm_num
  rw [hhalf]
  have hpos : 0 < Real.sqrt (1 / 2) := Real.sqrt_pos.mpr (by norm_num)
  have hd : Real.sqrt (1 / 2) / Real.sqrt (1 / 2) = 1 := div_self hpos.ne'
  rw [atan2, if_pos hpos, hd, Real.arctan_one]
  ring

/-! ## Shared concrete instances -/

/-- Calm weather with full turbulence and zero visibility: passes the
drone's threshold gate, fails the weighted-average score. -/
def wCalmTurbulent : WeatherCondition := ⟨0, 0, 0, 0, 0, 0, 1, 0⟩

/-- Strong wind, otherwise perfect: fails the drone's threshold gate,
passes the weighted-average score. -/
def wWindyClear : WeatherCondition := ⟨0, 20, 0, 0, 10, 0, 0, 0⟩

/-- A drone fresh out of `__init__` at the origin. -/
def droneZero : Drone := mkDrone "d0" (0, 0) 0

/-- Stored grid condition used by the concrete weather states. -/
noncomputable def condMild : WeatherCondition := ⟨20, 3, 100, 1, 10, 1015, 1/10, 30⟩

/-- A weather simulator state over the tiny region
`((0,0),(0.005,0.005))` (a single 0.01°-grid point at the origin), with a
single forecast snapshot at time `0` — the shape `update_conditions`
produces from `__init__` for these bounds. -/
noncomputable def wsOne : WeatherState :=
  { region_bounds := ((0, 0), (1/200, 1/200))
    grid_resolution := 1/100
    current_conditions := [((0, 0), condMild)]
    forecast_data := [(0, [((0, 0), condMild)])] }

/-! ## Weather interpolation lemmas -/

theorem interpolate_all_absent (st : WeatherState) (pos : Point)
    (dict : List (Point × WeatherCondition))
    (h : ∀ p ∈ WeatherState.stencil st.grid_resolution pos,
      alookup dict p = none) :
    st.interpolateConditions pos dict = zeroCondition := by
  simp only [WeatherState.stencil, List.mem_cons, List.mem_singleton,
    List.not_mem_nil, or_false, forall_eq_or_imp, forall_eq] at h
  obtain ⟨h1, h2, h3, h4⟩ := h
  unfold WeatherState.interpolateConditions WeatherState.interpField
  simp only [WeatherState.stencil, List.map_cons, List.map_nil, h1, h2, h3,
    h4, List.sum_cons, List.sum_nil, zeroCondition]
  norm_num

theorem zeroCondition_safe : (zeroCondition.isSafeForFlight).1 := by
  unfold WeatherCondition.isSafeForFlight WeatherCondition.safetyScores
    WeatherCondition.windSafety WeatherCondition.visibilitySafety
    WeatherCondition.precipitationSafety zeroCondition
  norm_num

/-! ## Claim C10 -/

/-- Claim C10, counterexample: at the out-of-grid query position
`(100, 100)` (all four stencil points unstored) `get_conditions` with no
time returns the all-zero condition — but that zero-visibility condition
is judged SAFE by `is_safe_for_flight` (score `0.75 ≥ 0.7`), not unsafe
as the claim states. -/
theorem c10_counterexample :
    wsOne.getConditions (100, 100) none = some zeroCondition ∧
      (zeroCondition.isSafeForFlight).1 := by
  constructor
  · show some (wsOne.interpolateConditions (100, 100)
      wsOne.current_conditions) = some zeroCondition
    rw [interpolate_all_absent]
    intro p hp
    simp only [wsOne, WeatherState.stencil, roundQ] at hp ⊢
    norm_num at hp
    rcases hp with h | h | h | h <;> subst h <;>
      simp only [alookup, wsOne] <;> rw [if_neg (by norm_num [Prod.ext_iff])]
  · exact zeroCondition_safe

/-- Claim C10: a query position whose four stencil grid points all lack a
stored condition yields, via `get_conditions` with time omitted, a
`WeatherCondition` with every field zero (not an absent value); that
all-zero condition is judged SAFE by `is_safe_for_flight` — its overall
score is `0.75`, at the default threshold `0.7` — rather than unsafe as
the claim's final clause states. -/
theorem c10_zero_interpolation (st : WeatherState) (pos : Point)
    (h : ∀ p ∈ WeatherState.stencil st.grid_resolution pos,
      alookup st.current_conditions p = none) :
    st.getConditions pos none = some zeroCondition ∧
      (zeroCondition.isSafeForFlight).1 := by
  refine ⟨?_, zeroCondition_safe⟩
  show some (st.interpolateConditions pos st.current_conditions) =
    some zeroCondition
  rw [interpolate_all_absent st pos st.current_conditions h]

/-- Witness for `c10_zero_interpolation` at the concrete state `wsOne`
and query `(100, 100)`. -/
theorem c10_zero_interpolation_witness :
    wsOne.getConditions (100, 100) none = some zeroCondition ∧
      (zeroCondition.isSafeForFlight).1 := by
  apply c10_zero_interpolation
  intro p hp
  simp only [wsOne, WeatherState.stencil, roundQ] at hp ⊢
  norm_num at hp
  rcases hp with h | h | h | h <;> subst h <;>
    simp only [alookup, wsOne] <;> rw [if_neg (by norm_num [Prod.ext_iff])]

/-! ## Claim C6 -/

/-- Claim C6, counterexample: on calm weather with zero visibility and
full turbulence, the gate `update_position` applies
(`Drone._is_safe_weather`) judges flight safe, while
`WeatherCondition.is_safe_for_flight` judges it unsafe (score
`0.5 < 0.7`) — the two predicates are not the same definition and their
verdicts diverge. -/
theorem c6_counterexample :
    droneZero.isSafeWeather (toWeatherArg wCalmTurbulent) ∧
      ¬ (wCalmTurbulent.isSafeForFlight).1 := by
  constructor
  · unfold Drone.isSafeWeather toWeatherArg wCalmTurbulent droneZero mkDrone
      defaultSpecification
    norm_num
  · unfold WeatherCondition.isSafeForFlight WeatherCondition.safetyScores
      WeatherCondition.windSafety WeatherCondition.visibilitySafety
      WeatherCondition.precipitationSafety wCalmTurbulent
    norm_num

/-- Claim C6, amended: the two safety checks are different predicates.
`is_safe_for_flight` (used by the fleet's risk analysis) is the
weighted-average rule — safe iff the mean of the wind, visibility,
precipitation and turbulence sub-scores is at least `0.7` — whereas the
check `update_position` applies to its weather argument
(`_is_safe_weather`) is the pair of thresholds `wind_speed ≤
max_wind_speed` and `precipitation ≤ max_precipitation`; the two diverge
in both directions. -/
theorem c6_gate_differs_from_score :
    (∀ w : WeatherCondition, (w.isSafeForFlight).1 ↔
      (max 0 (1 - w.wind_speed / 15) + min 1 (max 0 ((w.visibility - 2) / 8))
        + max 0 (1 - w.precipitation / 10) + (1 - w.turbulence)) / 4
        ≥ 7/10) ∧
    (∀ (d : Drone) (w : WeatherCondition),
      d.isSafeWeather (toWeatherArg w) ↔
        (w.wind_speed ≤ (d.specification.max_wind_speed : ℝ) ∧
         w.precipitation ≤ (d.specification.max_precipitation : ℝ))) ∧
    (droneZero.isSafeWeather (toWeatherArg wCalmTurbulent) ∧
      ¬ (wCalmTurbulent.isSafeForFlight).1) ∧
    (¬ droneZero.isSafeWeather (toWeatherArg wWindyClear) ∧
      (wWindyClear.isSafeForFlight).1) := by
  refine ⟨?_, ?_, ⟨?_, ?_⟩, ?_, ?_⟩
  · intro w
    unfold WeatherCondition.isSafeForFlight WeatherCondition.safetyScores
      WeatherCondition.windSafety WeatherCondition.visibilitySafety
      WeatherCondition.precipitationSafety
    simp only [List.sum_cons, List.sum_nil]
    constructor <;> intro h <;> linarith
  · intro d w
    unfold Drone.isSafeWeather toWeatherArg
    simp [Option.getD]
  · unfold Drone.isSafeWeather toWeatherArg wCalmTurbulent droneZero mkDrone
      defaultSpecification
    norm_num
  · unfold WeatherCondition.isSafeForFlight WeatherCondition.safetyScores
      WeatherCondition.windSafety WeatherCondition.visibilitySafety
      WeatherCondition.precipitationSafety wCalmTurbulent
    norm_num
  · unfold Drone.isSafeWeather toWeatherArg wWindyClear droneZero mkDrone
      defaultSpecification
    norm_num
  · unfold WeatherCondition.isSafeForFlight WeatherCondition.safetyScores
      WeatherCondition.windSafety WeatherCondition.visibilitySafety
      WeatherCondition.precipitationSafety wWindyClear
    norm_num

/-! ## Claim C4 -/

/-- The low-battery branch of `update_position`: when the altitude and
weather gates pass, no exception is raised, and the power check fails,
the call returns `False` having changed exactly the status and the
emergency message. -/
theorem updatePosition_low_battery (d : Drone) (newpos : Point)
    (alt : Option ℝ) (w : Option WeatherArg) (now : ℚ)
    (h1 : ∀ a, alt = some a → d.isSafeAltitude a)
    (h2 : ∀ x, w = some x → d.isSafeWeather x)
    (h3 : ¬ d.updatePositionRaises w)
    (h4 : ¬ d.hasSufficientPower
      (d.calcPowerConsumption (haversine d.position newpos) d.altitude w)) :
    d.updatePosition newpos alt w now =
      ({ d with status := .emergency,
                emergency_status := some "Low battery" }, false) := by
  unfold Drone.updatePosition
  rw [dif_neg (show ¬ ∃ a, alt = some a ∧ ¬ d.isSafeAltitude a by
        rintro ⟨a, ha, hunsafe⟩; exact hunsafe (h1 a ha)),
      dif_neg (show ¬ ∃ x, w = some x ∧ ¬ d.isSafeWeather x by
        rintro ⟨x, hx, hunsafe⟩; exact hunsafe (h2 x hx)),
      if_neg h3]
  simp only []
  split_ifs
  · rfl

theorem droneZero_insufficient_power :
    ¬ droneZero.hasSufficientPower
      (droneZero.calcPowerConsumption
        (haversine droneZero.position ((0 : ℚ), (90 : ℚ)))
        droneZero.altitude none) := by
  have hpos : droneZero.position = ((0 : ℚ), (0 : ℚ)) := rfl
  rw [hpos]
  simp only [Drone.hasSufficientPower, Drone.calcPowerConsumption, droneZero,
    mkDrone, defaultSpecification, haversine_equator90]
  intro h
  push_cast at h
  ring_nf at h
  have h3 := Real.pi_gt_three
  linarith

/-- Claim C4, counterexample: a call of `update_position` on a fresh
default drone towards `(0, 90)` (about 10⁴ km of travel, requiring far
more power than the battery holds above the 20 % reserve) returns
`False` and sets the status to EMERGENCY — but it also mutates
`emergency_status` from `None` to a low-battery message, so the claim
that such a call "leaves all drone state unchanged except the status" is
false. -/
theorem c4_counterexample :
    (droneZero.updatePosition ((0 : ℚ), (90 : ℚ)) none none 0).2 = false ∧
    (droneZero.updatePosition ((0 : ℚ), (90 : ℚ)) none none 0).1.status =
      .emergency ∧
    droneZero.emergency_status = none ∧
    (droneZero.updatePosition
      ((0 : ℚ), (90 : ℚ)) none none 0).1.emergency_status =
      some "Low battery" := by
  have hkey := updatePosition_low_battery droneZero ((0 : ℚ), (90 : ℚ))
    none none 0 (by intro a ha; cases ha) (by intro x hx; cases hx)
    (by simp [Drone.updatePositionRaises, droneZero, mkDrone,
      defaultSpecification]) droneZero_insufficient_power
  refine ⟨?_, ?_, rfl, ?_⟩
  · rw [hkey]
  · rw [hkey]
  · rw [hkey]

/-- Claim C4, amended: (1) `update_position` never drops the battery
below the 20 % emergency reserve: if the drone's reserve is the default
20 and its battery is at least 20 before the call, it is still at least
20 after the call, on every path (gates, exception, low-battery
rejection or committed move); (2) any call that passes the altitude and
weather gates and does not raise, but whose computed power consumption
would push the battery below the reserve, returns `False` and leaves the
drone unchanged except for the status (set to EMERGENCY) and the
`emergency_status` message (set to the low-battery message) — the
claim's "unchanged except the status" must also except
`emergency_status`, and restrict to calls that reach the power check. -/
theorem c4_battery_reserve :
    (∀ (d : Drone) (newpos : Point) (alt : Option ℝ) (w : Option WeatherArg)
      (now : ℚ), d.specification.emergency_reserve = 20 →
      d.battery_level ≥ 20 →
      ((d.updatePosition newpos alt w now).1).battery_level ≥ 20) ∧
    (∀ (d : Drone) (newpos : Point) (alt : Option ℝ) (w : Option WeatherArg)
      (now : ℚ),
      (∀ a, alt = some a → d.isSafeAltitude a) →
      (∀ x, w = some x → d.isSafeWeather x) →
      ¬ d.updatePositionRaises w →
      ¬ d.hasSufficientPower
        (d.calcPowerConsumption (haversine d.position newpos) d.altitude w) →
      d.updatePosition newpos alt w now =
        ({ d with status := .emergency,
                  emergency_status := some "Low battery" }, false)) := by
  constructor
  · intro d newpos alt w now hres hbat
    unfold Drone.updatePosition
    split_ifs with g1 g2 g3
    · exact hbat
    · exact hbat
    · exact hbat
    · simp only []
      split_ifs with g4
      · unfold Drone.hasSufficientPower at g4
        rw [hres] at g4
        push_cast at g4
        dsimp only [Drone.updateComponentHealth, Drone.recordTelemetry]
        exact g4
      · exact hbat
  · exact updatePosition_low_battery

/-- Witness for `c4_battery_reserve`: both conjuncts instantiated with
the fresh default drone and the long movement to `(0, 90)`. -/
theorem c4_battery_reserve_witness :
    ((droneZero.updatePosition ((0 : ℚ), (90 : ℚ)) none none
      0).1).battery_level ≥ 20 ∧
    droneZero.updatePosition ((0 : ℚ), (90 : ℚ)) none none 0 =
      ({ droneZero with status := .emergency,
                        emergency_status := some "Low battery" }, false) := by
  constructor
  · exact c4_battery_reserve.1 droneZero ((0 : ℚ), (90 : ℚ)) none none 0
      (by rfl) (by norm_num [droneZero, mkDrone])
  · exact c4_battery_reserve.2 droneZero ((0 : ℚ), (90 : ℚ)) none none 0
      (by intro a ha; cases ha) (by intro x hx; cases hx)
      (by simp [Drone.updatePositionRaises, droneZero, mkDrone,
        defaultSpecification])
      droneZero_insufficient_power

/-! ## Claim C8 -/

/-- The spec's notion of a position lying inside the simulator's region
bounds `((min_lat, min_lon), (max_lat, max_lon))` (the code never checks
this). -/
def inRegionBounds (b : Point × Point) (p : Point) : Prop :=
  b.1.1 ≤ p.1 ∧ p.1 ≤ b.2.1 ∧ b.1.2 ≤ p.2 ∧ p.2 ≤ b.2.2

theorem wsOne_far_is_zero :
    wsOne.getConditions (100, 100) none = some zeroCondition := by
  show some (wsOne.interpolateConditions (100, 100)
    wsOne.current_conditions) = some zeroCondition
  rw [interpolate_all_absent]
  intro p hp
  simp only [wsOne, WeatherState.stencil, roundQ] at hp ⊢
  norm_num at hp
  rcases hp with h | h | h | h <;> subst h <;>
    simp only [alookup, wsOne] <;> rw [if_neg (by norm_num [Prod.ext_iff])]

/-- Claim C8, counterexample: the query position `(100, 100)` lies far
outside the region bounds `((0,0),(0.005,0.005))` of the simulator state
`wsOne`, yet `get_conditions` does not fail: it returns the (all-zero)
interpolated `WeatherCondition`.  There is no bounds check in
`get_conditions`. -/
theorem c8_counterexample :
    ¬ inRegionBounds wsOne.region_bounds (100, 100) ∧
      wsOne.getConditions (100, 100) none = some zeroCondition := by
  refine ⟨?_, wsOne_far_is_zero⟩
  intro hin
  rcases hin with ⟨-, h2, -⟩
  norm_num [wsOne] at h2

theorem rawWeight_pos (pos p : Point) : 0 < WeatherState.rawWeight pos p := by
  unfold WeatherState.rawWeight
  positivity

theorem totalWeight_pos (st : WeatherState) (pos : Point) :
    0 < st.totalWeight pos := by
  unfold WeatherState.totalWeight WeatherState.stencil
  simp only [List.map_cons, List.map_nil, List.sum_cons, List.sum_nil]
  have w1 := rawWeight_pos pos
  unfold WeatherState.rawWeight
  positivity

/-- Claim C8, amended: `get_conditions` performs no bounds check — every
query position, inside the region or not, yields a `WeatherCondition`
(never an unavailable result); and the result is the inverse-distance
weighting over the four stencil grid points (round-to-grid plus positive
neighbours) with weights `1/(distance+1e-6)` normalized to sum 1: when
all four points are stored, every interpolated field is the
weight-normalized sum of the stored fields. -/
theorem c8_no_bounds_check_idw :
    (∀ (st : WeatherState) (pos : Point),
      ∃ c, st.getConditions pos none = some c) ∧
    (∀ (st : WeatherState) (pos : Point)
      (dict : List (Point × WeatherCondition)),
      (∀ p ∈ WeatherState.stencil st.grid_resolution pos,
        (alookup dict p).isSome) →
      ((WeatherState.stencil st.grid_resolution pos).map
        (fun p => WeatherState.rawWeight pos p / st.totalWeight pos)).sum
          = 1 ∧
      ∀ f : WeatherCondition → ℝ,
        WeatherState.interpField st pos dict f =
          ((WeatherState.stencil st.grid_resolution pos).map
            (fun p => f ((alookup dict p).getD zeroCondition) *
              (WeatherState.rawWeight pos p / st.totalWeight pos))).sum) := by
  constructor
  · intro st pos
    exact ⟨_, rfl⟩
  · intro st pos dict h
    have htot := totalWeight_pos st pos
    constructor
    · show ((WeatherState.stencil st.grid_resolution pos).map
        (fun p => WeatherState.rawWeight pos p / st.totalWeight pos)).sum = 1
      have hrw : ((WeatherState.stencil st.grid_resolution pos).map
          (fun p => WeatherState.rawWeight pos p / st.totalWeight pos)).sum =
          ((WeatherState.stencil st.grid_resolution pos).map
            (WeatherState.rawWeight pos)).sum / st.totalWeight pos := by
        unfold WeatherState.stencil
        simp only [List.map_cons, List.map_nil, List.sum_cons, List.sum_nil]
        ring
      rw [hrw]
      exact div_self htot.ne'
    · intro f
      simp only [WeatherState.stencil, List.mem_cons, List.mem_singleton,
        List.not_mem_nil, or_false, forall_eq_or_imp, forall_eq] at h
      obtain ⟨h1, h2, h3, h4⟩ := h
      obtain ⟨c1, hc1⟩ := Option.isSome_iff_exists.mp h1
      obtain ⟨c2, hc2⟩ := Option.isSome_iff_exists.mp h2
      obtain ⟨c3, hc3⟩ := Option.isSome_iff_exists.mp h3
      obtain ⟨c4, hc4⟩ := Option.isSome_iff_exists.mp h4
      unfold WeatherState.interpField
      simp only [WeatherState.stencil, List.map_cons, List.map_nil, hc1, hc2,
        hc3, hc4, List.sum_cons, List.sum_nil, Option.getD_some]

/-- A simulator state storing conditions at all four stencil points of
the origin. -/
noncomputable def wsFour : WeatherState :=
  { region_bounds := ((0, 0), (1/50, 1/50))
    grid_resolution := 1/100
    current_conditions :=
      [((0, 0), condMild), ((1/100, 0), condMild),
       ((0, 1/100), condMild), ((1/100, 1/100), condMild)]
    forecast_data := [] }

/-- Witness for `c8_no_bounds_check_idw`: the first part at `wsOne` and
the far query `(100, 100)`; the second at `wsFour` and the origin, whose
four stencil points are all stored. -/
theorem c8_no_bounds_check_idw_witness :
    (∃ c, wsOne.getConditions (100, 100) none = some c) ∧
    (((WeatherState.stencil wsFour.grid_resolution (0, 0)).map
        (fun p => WeatherState.rawWeight (0, 0) p / wsFour.totalWeight
          (0, 0))).sum = 1 ∧
      ∀ f : WeatherCondition → ℝ,
        WeatherState.interpField wsFour (0, 0) wsFour.current_conditions f =
          ((WeatherState.stencil wsFour.grid_resolution (0, 0)).map
            (fun p => f ((alookup wsFour.current_conditions p).getD
              zeroCondition) *
              (WeatherState.rawWeight (0, 0) p / wsFour.totalWeight
                (0, 0)))).sum) := by
  constructor
  · exact c8_no_bounds_check_idw.1 wsOne (100, 100)
  · refine c8_no_bounds_check_idw.2 wsFour (0, 0) wsFour.current_conditions ?_
    intro p hp
    simp only [wsFour, WeatherState.stencil, roundQ] at hp ⊢
    norm_num at hp
    rcases hp with h | h | h | h <;> subst h <;>
      simp [alookup, Prod.ext_iff]

/-! ## Selection machinery for `assign_delivery` -/

open Classical in
/-- The pure content of one `assign_delivery` loop step once route and
score are known: keep the incumbent unless the new score is strictly
greater (`route_score > best_score`). -/
noncomputable def bestStep (routeOf : Drone → List RoutePoint)
    (sc : Drone → ℝ) (b : Option (Drone × List RoutePoint × ℝ)) (d : Drone) :
    Option (Drone × List RoutePoint × ℝ) :=
  match b with
  | none => some (d, routeOf d, sc d)
  | some bb => if sc d > bb.2.2 then some (d, routeOf d, sc d) else b

/-- When every candidate's route and score are determined, the
`assign_delivery` loop computes exactly the pure strict-improvement
fold. -/
theorem assignLoop_eval (st : FleetState) (fuel : ℕ) (dest : Point)
    (payload : ℚ) (wd : List (Point × WeatherCondition)) (now : ℚ)
    (routeOf : Drone → List RoutePoint) (sc : Drone → ℝ) :
    ∀ (l : List Drone) (best : Option (Drone × List RoutePoint × ℝ)),
    (∀ d ∈ l, calculateRoute st.route_optimizer fuel d.position dest wd now =
        some (routeOf d) ∧ routeOf d ≠ [] ∧
      FleetState.calcRouteScore d (routeOf d)
        (st.weather.getFlightRisks ((routeOf d).map (·.position)) now)
        payload = .ok (sc d)) →
    FleetState.assignLoop st fuel dest payload wd now l best =
      some (.ok ((l.foldl (bestStep routeOf sc) best).map
        (fun b => (b.1, b.2.1)))) := by
  intro l
  induction l with
  | nil => intro best _; rfl
  | cons d rest ih =>
    intro best hl
    obtain ⟨hroute, hne, hscore⟩ := hl d (List.mem_cons_self d rest)
    have hrest := fun e he => hl e (List.mem_cons_of_mem d he)
    obtain ⟨rp, rps, hco⟩ := List.exists_cons_of_ne_nil hne
    rw [List.foldl_cons]
    unfold FleetState.assignLoop
    rw [hroute, hco]
    simp only []
    rw [← hco, hscore]
    simp only []
    cases best with
    | none =>
      rw [if_pos trivial]
      rw [ih (some (d, routeOf d, sc d)) hrest]
      rfl
    | some bb =>
      by_cases hgt : sc d > bb.2.2
      · rw [if_pos hgt, ih (some (d, routeOf d, sc d)) hrest]
        show _ = some (.ok ((rest.foldl (bestStep routeOf sc)
          (bestStep routeOf sc (some bb) d)).map (fun b => (b.1, b.2.1))))
        rw [show bestStep routeOf sc (some bb) d =
          some (d, routeOf d, sc d) from if_pos hgt]
      · rw [if_neg hgt, ih (some bb) hrest]
        show _ = some (.ok ((rest.foldl (bestStep routeOf sc)
          (bestStep routeOf sc (some bb) d)).map (fun b => (b.1, b.2.1))))
        rw [show bestStep routeOf sc (some bb) d = some bb from if_neg hgt]

/-- The strict-improvement fold starting from an incumbent selects the
maximum score, ties resolved to the earliest: any later winner is
preceded only by strictly smaller scores. -/
theorem foldl_bestStep_argmax (routeOf : Drone → List RoutePoint)
    (sc : Drone → ℝ) :
    ∀ (l : List Drone) (e : Drone),
    ∃ w, l.foldl (bestStep routeOf sc) (some (e, routeOf e, sc e)) =
        some (w, routeOf w, sc w) ∧
      (w = e ∨ w ∈ l) ∧ sc e ≤ sc w ∧ (∀ d ∈ l, sc d ≤ sc w) ∧
      (w ≠ e → ∃ l1 l2, l = l1 ++ w :: l2 ∧ sc e < sc w ∧
        ∀ d ∈ l1, sc d < sc w) := by
  intro l
  induction l with
  | nil =>
    intro e
    exact ⟨e, rfl, Or.inl rfl, le_refl _, by simp, fun h => absurd rfl h⟩
  | cons d rest ih =>
    intro e
    rw [List.foldl_cons]
    by_cases hgt : sc d > sc e
    · have hstep : bestStep routeOf sc (some (e, routeOf e, sc e)) d =
          some (d, routeOf d, sc d) := by
        simp only [bestStep]
        rw [if_pos hgt]
      rw [hstep]
      obtain ⟨w, hw, hmem, hle, hall, hfirst⟩ := ih d
      refine ⟨w, hw, ?_, ?_, ?_, ?_⟩
      · rcases hmem with h | h
        · exact Or.inr (h ▸ List.mem_cons_self d rest)
        · exact Or.inr (List.mem_cons_of_mem d h)
      · exact le_trans (le_of_lt hgt) hle
      · intro x hx
        rcases List.mem_cons.mp hx with h | h
        · exact h ▸ hle
        · exact hall x h
      · intro hne
        by_cases hwd : w = d
        · exact ⟨[], rest, by simp [hwd], hwd ▸ hgt, by simp⟩
        · obtain ⟨l1, l2, hsplit, hlt, hearl⟩ := hfirst hwd
          refine ⟨d :: l1, l2, by simp [hsplit], lt_trans hgt hlt, ?_⟩
          intro x hx
          rcases List.mem_cons.mp hx with h | h
          · exact h ▸ hlt
          · exact hearl x h
    · have hstep : bestStep routeOf sc (some (e, routeOf e, sc e)) d =
          some (e, routeOf e, sc e) := by
        simp only [bestStep]
        rw [if_neg hgt]
      rw [hstep]
      obtain ⟨w, hw, hmem, hle, hall, hfirst⟩ := ih e
      refine ⟨w, hw, ?_, hle, ?_, ?_⟩
      · rcases hmem with h | h
        · exact Or.inl h
        · exact Or.inr (List.mem_cons_of_mem d h)
      · intro x hx
        rcases List.mem_cons.mp hx with h | h
        · exact h ▸ le_trans (not_lt.mp hgt) hle
        · exact hall x h
      · intro hne
        obtain ⟨l1, l2, hsplit, hlt, hearl⟩ := hfirst hne
        refine ⟨d :: l1, l2, by simp [hsplit], hlt, ?_⟩
        intro x hx
        rcases List.mem_cons.mp hx with h | h
        · exact h ▸ lt_of_le_of_lt (not_lt.mp hgt) hlt
        · exact hearl x h

/-! ## Concrete route evaluation -/

/-- When start and end coincide, the very first A* iteration pops the
start, finds it within one grid cell of the target and reconstructs the
one-point path. -/
theorem aStarSearch_self (opt : RouteOptimizer) (hgrid : 0 < opt.grid_size)
    (fuel : ℕ) (p : Point) :
    aStarSearch opt (fuel + 1) p p = some [p] := by
  have hstep : aStarStep opt p (aStarInit opt p p) = Sum.inl [p] := by
    unfold aStarStep aStarInit
    simp only [minItem, List.foldl_nil]
    rw [if_pos]
    · simp [reconstructPath, reconstructGo, alookup]
    · rw [haversine_self]
      exact_mod_cast hgrid
  show aStarLoop opt p (fuel + 1) (aStarInit opt p p) = some [p]
  unfold aStarLoop
  rw [hstep]

/-- `calculate_route` on coinciding start and end over an optimizer with
no no-fly zones: a single point at minimum altitude. -/
theorem calculateRoute_self (opt : RouteOptimizer)
    (hz : opt.no_fly_zones = []) (hgrid : 0 < opt.grid_size) (fuel : ℕ)
    (p : Point) (now : ℚ) :
    calculateRoute opt (fuel + 1) p p [] now =
      some [⟨p, (opt.min_altitude : ℝ), now, none⟩] := by
  unfold calculateRoute
  rw [aStarSearch_self opt hgrid fuel p]
  simp only [createAltitudeProfile, calculateOptimalAltitude, hz,
    List.foldl_nil, List.map_cons, List.map_nil, List.isEmpty_nil,
    if_pos, smoothPath]

/-! ## Shared concrete assignment scenario -/

/-- An idle drone with low battery (10 %) and maintenance score 90,
stationed at `(50, 50)` — far from the weather grid of `wsOne`. -/
noncomputable def droneLow : Drone :=
  { mkDrone "dm" (50, 50) 0 with battery_level := 10,
                                 maintenance_score := 90 }

/-- The single-point route `calculate_route` produces for `droneLow`
delivering to its own position. -/
noncomputable def rpSelf (now : ℚ) : RoutePoint := ⟨(50, 50), 100, now, none⟩

/-- A fleet whose only drone is `droneLow`, with the `wsOne` weather
state (as built by `FleetManager(base, weather_bounds=((0,0),
(0.005,0.005)))` once `update_conditions` has produced a forecast
snapshot). -/
noncomputable def fleetLow : FleetState :=
  { drones := [("dm", droneLow)]
    base_position := (0, 0)
    active_deliveries := []
    route_optimizer := {}
    weather := wsOne
    delivery_routes := [] }

theorem fleetLow_weather_data : fleetLow.weatherDataForRoute = [] := by
  unfold FleetState.weatherDataForRoute
  norm_num [fleetLow, wsOne, truncQ, intRange]

theorem wsOne_far50_zero :
    ∀ t : ℚ, wsOne.getConditions (50, 50) (some t) = some zeroCondition := by
  intro t
  unfold WeatherState.getConditions
  simp only [wsOne, List.foldl_cons, List.foldl_nil]
  rw [if_neg (lt_irrefl _)]
  rw [interpolate_all_absent]
  intro q hq
  simp only [wsOne, WeatherState.stencil, roundQ] at hq ⊢
  norm_num at hq
  rcases hq with h | h | h | h <;> subst h <;>
    simp only [alookup] <;> rw [if_neg (by norm_num [Prod.ext_iff])]

/-- The risk list `assign_delivery` computes for the one-point route at
`(50, 50)` under `wsOne`: one entry, judged by the all-zero interpolated
condition. -/
theorem fleetLow_risks (now : ℚ) :
    fleetLow.weather.getFlightRisks [(50, 50)] now =
      [⟨(50, 50), now + 0 * 120, (zeroCondition.isSafeForFlight).1,
        (zeroCondition.isSafeForFlight).2⟩] := by
  unfold WeatherState.getFlightRisks
  simp only [List.enum, List.enumFrom, List.filterMap]
  push_cast
  rw [show fleetLow.weather = wsOne from rfl, wsOne_far50_zero (now + 0 * 120)]

/-- A risk entry whose verdict is safe, as used for concrete scoring. -/
noncomputable def riskTrue : WeatherState.RiskEntry :=
  ⟨(50, 50), 0, True, [1, 1, 1, 1]⟩

/-- The score the code computes for `droneLow` on a one-point route with
one safe risk entry: `0.3·90 + 0.3·100 + 0.3·100 + 0.1·100 = 97`. -/
theorem calcRouteScore_droneLow_riskTrue :
    FleetState.calcRouteScore droneLow [rpSelf 0] [riskTrue] 1 =
      .ok 97 := by
  unfold FleetState.calcRouteScore
  simp only [List.tail_cons, List.zip_nil_right, List.map_nil, List.sum_nil,
    List.map_cons, List.sum_cons, List.length_cons, List.length_nil]
  rw [if_neg (by norm_num [droneLow, mkDrone] :
    ¬ droneLow.battery_level = 0)]
  rw [if_neg (by norm_num)]
  rw [show riskTrue.is_safe = True from rfl, if_pos trivial]
  show Except.ok _ = _
  norm_num [droneLow, mkDrone]

/-! ## Claim C9 -/

/-- Claim C9, counterexample: on a one-point route (so the estimated
power and route length are both `0`, making the claimed battery and
distance scores both `100`) with a single safe risk entry and a drone
with maintenance score 90 and battery 10, the code's score is
`0.3·90 + 0.3·100 + 0.3·100 + 0.1·100 = 97`, while the claimed formula
`0.4·maintenance + 0.4·battery_score + 0.2·distance_score` gives
`96` — the claimed weights (and the absence of the weather term) are
wrong. -/
theorem c9_counterexample :
    FleetState.calcRouteScore droneLow [rpSelf 0] [riskTrue] 1 =
      .ok 97 ∧
    (97 : ℝ) ≠ 4/10 * droneLow.maintenance_score +
      4/10 * (100 * (1 - 0 / droneLow.battery_level)) +
      2/10 * (100 * (1 / (1 + 0 / 10))) := by
  refine ⟨calcRouteScore_droneLow_riskTrue, ?_⟩
  norm_num [droneLow, mkDrone]

/-- Claim C9, amended: for every candidate the assignment score equals
the weighted sum `0.3·maintenance_score + 0.3·battery_score +
0.3·weather_score + 0.1·distance_score` (not `0.4/0.4/0.2`), where
`battery_score = 100·(1 − estimated_power/battery_level)`,
`weather_score` is the mean over the risk entries of `100` for safe
entries and `25·(sum of safety scores)` for unsafe ones, and
`distance_score = 100·(1/(1 + route_km/10))`; and `assign_delivery`
selects the maximum-scoring candidate with ties broken by
first-encountered order (every earlier candidate scores strictly
less). -/
theorem c9_score_and_selection :
    (∀ (d : Drone) (route : List RoutePoint)
      (risks : List WeatherState.RiskEntry) (payload : ℚ),
      d.battery_level ≠ 0 → risks ≠ [] →
      FleetState.calcRouteScore d route risks payload = .ok (
        3/10 * d.maintenance_score +
        3/10 * (100 * (1 - ((route.zip route.tail).map (fun pq =>
          d.calcPowerConsumptionPub (haversine pq.1.position pq.2.position)
            payload)).sum / d.battery_level)) +
        3/10 * (((risks.map (fun r => if r.is_safe then (100 : ℝ)
          else r.safety_scores.sum * 25)).sum) / (risks.length : ℝ)) +
        1/10 * (100 * (1 / (1 + ((route.zip route.tail).map (fun pq =>
          haversine pq.1.position pq.2.position)).sum / 10))))) ∧
    (∀ (st : FleetState) (fuel : ℕ) (dest : Point) (payload : ℚ)
      (wd : List (Point × WeatherCondition)) (now : ℚ)
      (routeOf : Drone → List RoutePoint) (sc : Drone → ℝ)
      (l : List Drone), l ≠ [] →
      (∀ d ∈ l, calculateRoute st.route_optimizer fuel d.position dest wd
          now = some (routeOf d) ∧ routeOf d ≠ [] ∧
        FleetState.calcRouteScore d (routeOf d)
          (st.weather.getFlightRisks ((routeOf d).map (·.position)) now)
          payload = .ok (sc d)) →
      ∃ w, FleetState.assignLoop st fuel dest payload wd now l none =
          some (.ok (some (w, routeOf w))) ∧
        (∀ d ∈ l, sc d ≤ sc w) ∧
        ∃ l1 l2, l = l1 ++ w :: l2 ∧ ∀ d ∈ l1, sc d < sc w) := by
  constructor
  · intro d route risks payload hbat hrisks
    unfold FleetState.calcRouteScore
    rw [if_neg hbat, if_neg (by simpa [List.length_eq_zero] using hrisks)]
  · intro st fuel dest payload wd now routeOf sc l hne hl
    obtain ⟨d0, rest, rfl⟩ := List.exists_cons_of_ne_nil hne
    rw [assignLoop_eval st fuel dest payload wd now routeOf sc _ none hl]
    rw [List.foldl_cons, show bestStep routeOf sc none d0 =
      some (d0, routeOf d0, sc d0) from rfl]
    obtain ⟨w, hw, hmem, hle, hall, hfirst⟩ :=
      foldl_bestStep_argmax routeOf sc rest d0
    refine ⟨w, by rw [hw]; rfl, ?_, ?_⟩
    · intro d hd
      rcases List.mem_cons.mp hd with h | h
      · exact h ▸ hle
      · exact hall d h
    · by_cases hwd : w = d0
      · exact ⟨[], rest, by simp [hwd], by simp⟩
      · obtain ⟨l1, l2, hsplit, hlt, hearl⟩ := hfirst hwd
        refine ⟨d0 :: l1, l2, by simp [hsplit], ?_⟩
        intro d hd
        rcases List.mem_cons.mp hd with h | h
        · exact h ▸ hlt
        · exact hearl d h

/-- Witness for `c9_score_and_selection`: the score formula at the
concrete `droneLow` scoring inputs, and the selection property on the
one-candidate list `[droneLow]` delivering to its own position over
`fleetLow`. -/
theorem c9_score_and_selection_witness :
    FleetState.calcRouteScore droneLow [rpSelf 0] [riskTrue] 1 = .ok (
      3/10 * droneLow.maintenance_score +
      3/10 * (100 * (1 - (([rpSelf 0].zip [rpSelf 0].tail).map (fun pq =>
        droneLow.calcPowerConsumptionPub
          (haversine pq.1.position pq.2.position) 1)).sum /
            droneLow.battery_level)) +
      3/10 * ((([riskTrue].map (fun r => if r.is_safe then (100 : ℝ)
        else r.safety_scores.sum * 25)).sum) / (([riskTrue].length : ℕ) : ℝ)) +
      1/10 * (100 * (1 / (1 + (([rpSelf 0].zip [rpSelf 0].tail).map (fun pq =>
        haversine pq.1.position pq.2.position)).sum / 10)))) ∧
    (∃ w, FleetState.assignLoop fleetLow 2 (50, 50) 1 [] 0 [droneLow]
        none = some (.ok (some (w, [rpSelf 0]))) ∧
      (∀ d ∈ [droneLow], (97 : ℝ) ≤ 97) ∧
      ∃ l1 l2, [droneLow] = l1 ++ w :: l2 ∧
        ∀ d ∈ l1, (97 : ℝ) < 97) := by
  constructor
  · exact c9_score_and_selection.1 droneLow [rpSelf 0] [riskTrue] 1
      (by norm_num [droneLow, mkDrone]) (by simp)
  · have hyp : ∀ d ∈ [droneLow],
        calculateRoute fleetLow.route_optimizer 2 d.position (50, 50) [] 0 =
          some [rpSelf 0] ∧ ([rpSelf 0] : List RoutePoint) ≠ [] ∧
        FleetState.calcRouteScore d [rpSelf 0]
          (fleetLow.weather.getFlightRisks
            ([rpSelf 0].map (·.position)) 0) 1 = .ok 97 := by
      intro d hd
      rw [List.mem_singleton.mp hd]
      refine ⟨?_, by simp, ?_⟩
      · show calculateRoute fleetLow.route_optimizer 2 droneLow.position
          (50, 50) [] 0 = some [rpSelf 0]
        rw [show droneLow.position = ((50 : ℚ), (50 : ℚ)) from rfl]
        exact calculateRoute_self _ rfl (by norm_num [fleetLow]) 1 (50, 50) 0
      · show FleetState.calcRouteScore droneLow [rpSelf 0]
          (fleetLow.weather.getFlightRisks
            ([rpSelf 0].map (·.position)) 0) 1 = .ok 97
        rw [show [rpSelf 0].map (·.position) = [((50 : ℚ), (50 : ℚ))] from
          rfl]
        rw [fleetLow_risks 0]
        unfold FleetState.calcRouteScore
        simp only [List.tail_cons, List.zip_nil_right, List.map_nil,
          List.sum_nil, List.map_cons, List.sum_cons, List.length_cons,
          List.length_nil]
        rw [if_neg (by norm_num [droneLow, mkDrone] :
          ¬ droneLow.battery_level = 0)]
        rw [if_neg (by norm_num)]
        rw [if_pos zeroCondition_safe]
        show Except.ok _ = _
        norm_num [droneLow, mkDrone]
    obtain ⟨w, hw, hall, hsplit⟩ := c9_score_and_selection.2 fleetLow 2
      (50, 50) 1 [] 0 (fun _ => [rpSelf 0]) (fun _ => (97 : ℝ)) [droneLow]
      (by simp) hyp
    exact ⟨w, hw, fun d _ => le_refl _, hsplit⟩

/-! ## Claim C3 -/

/-- The fleet state `assign_delivery` leaves behind after assigning
`droneLow` a delivery to its own position. -/
noncomputable def fleetLowAfter : FleetState :=
  { fleetLow with
    delivery_routes := [("dm", [rpSelf 0])]
    drones := [("dm", (droneLow.startDelivery (50, 50) 1).1)]
    active_deliveries := [("dm", ⟨(50, 50), 1, 0, [rpSelf 0]⟩)] }

theorem fleetLow_available : fleetLow.availableDrones = [droneLow] := by
  unfold FleetState.availableDrones
  simp only [fleetLow, List.map_cons, List.map_nil]
  rw [List.filter_cons, if_pos, List.filter_nil]
  exact decide_eq_true ⟨rfl, by norm_num [droneLow, mkDrone]⟩

/-- Claim C3, counterexample: `droneLow` has battery level `10 < 30`,
yet `assign_delivery` (whose availability filter checks only
`status == idle` and `maintenance_score >= 80`, never the battery)
assigns it the delivery and returns its id instead of none. -/
theorem c3_counterexample :
    droneLow.battery_level < 30 ∧
    FleetState.assignDelivery fleetLow 2 (50, 50) 1 0 =
      some (.ok (some "dm", fleetLowAfter)) := by
  refine ⟨by norm_num [droneLow, mkDrone], ?_⟩
  unfold FleetState.assignDelivery
  rw [fleetLow_available]
  rw [if_neg (by simp)]
  rw [fleetLow_weather_data]
  have hloop := assignLoop_eval fleetLow 2 (50, 50) 1 [] 0
    (fun _ => [rpSelf 0]) (fun _ => (97 : ℝ)) [droneLow] none ?_
  · simp only []
    rw [hloop]
    rfl
  · intro d hd
    rw [List.mem_singleton.mp hd]
    refine ⟨?_, by simp, ?_⟩
    · show calculateRoute fleetLow.route_optimizer 2 droneLow.position
        (50, 50) [] 0 = some [rpSelf 0]
      rw [show droneLow.position = ((50 : ℚ), (50 : ℚ)) from rfl]
      exact calculateRoute_self _ rfl (by norm_num [fleetLow]) 1 (50, 50) 0
    · show FleetState.calcRouteScore droneLow [rpSelf 0]
        (fleetLow.weather.getFlightRisks
          ([rpSelf 0].map (·.position)) 0) 1 = .ok 97
      rw [show [rpSelf 0].map (·.position) = [((50 : ℚ), (50 : ℚ))] from rfl]
      rw [fleetLow_risks 0]
      unfold FleetState.calcRouteScore
      simp only [List.tail_cons, List.zip_nil_right, List.map_nil,
        List.sum_nil, List.map_cons, List.sum_cons, List.length_cons,
        List.length_nil]
      rw [if_neg (by norm_num [droneLow, mkDrone] :
        ¬ droneLow.battery_level = 0)]
      rw [if_neg (by norm_num)]
      rw [if_pos zeroCondition_safe]
      show Except.ok _ = _
      norm_num [droneLow, mkDrone]

/-- Claim C3, amended: delivery assignment considers exactly the drones
with `status == idle` and `maintenance_score ≥ 80` — there is no battery
condition in the filter; consequently `assign_delivery` returns none
when every drone is non-idle or has maintenance below 80, but a
low-battery drone passing those two checks can still be assigned. -/
theorem c3_availability_filter :
    (∀ (st : FleetState) (d : Drone),
      d ∈ st.availableDrones ↔
        d ∈ st.drones.map Prod.snd ∧ d.status = .idle ∧
          d.maintenance_score ≥ 80) ∧
    (∀ (st : FleetState) (fuel : ℕ) (dest : Point) (payload : ℚ) (now : ℚ),
      (∀ d ∈ st.drones.map Prod.snd,
        d.status ≠ .idle ∨ d.maintenance_score < 80) →
      FleetState.assignDelivery st fuel dest payload now =
        some (.ok (none, st))) := by
  constructor
  · intro st d
    unfold FleetState.availableDrones
    rw [List.mem_filter]
    simp only [decide_eq_true_eq]
  · intro st fuel dest payload now h
    have hav : st.availableDrones = [] := by
      unfold FleetState.availableDrones
      rw [List.filter_eq_nil_iff]
      intro d hd
      simp only [decide_eq_true_eq]
      rcases h d hd with hs | hm
      · exact fun hc => hs hc.1
      · exact fun hc => absurd hc.2 (not_le.mpr hm)
    unfold FleetState.assignDelivery
    rw [hav]
    rfl

/-- A drone failing the maintenance gate. -/
noncomputable def droneWorn : Drone :=
  { mkDrone "db" (0, 0) 0 with maintenance_score := 50 }

/-- A fleet whose only drone fails the maintenance gate. -/
noncomputable def fleetWorn : FleetState :=
  { fleetLow with drones := [("db", droneWorn)] }

/-- Witness for `c3_availability_filter`: the filter characterization at
`fleetLow`/`droneLow`, and the none-result on `fleetWorn`, whose only
drone has maintenance score 50. -/
theorem c3_availability_filter_witness :
    (droneLow ∈ fleetLow.availableDrones ↔
      droneLow ∈ fleetLow.drones.map Prod.snd ∧ droneLow.status = .idle ∧
        droneLow.maintenance_score ≥ 80) ∧
    FleetState.assignDelivery fleetWorn 2 (50, 50) 1 0 =
      some (.ok (none, fleetWorn)) := by
  constructor
  · exact c3_availability_filter.1 fleetLow droneLow
  · refine c3_availability_filter.2 fleetWorn 2 (50, 50) 1 0 ?_
    intro d hd
    simp only [fleetWorn, fleetLow, List.map_cons, List.map_nil,
      List.mem_singleton] at hd
    rw [hd]
    right
    norm_num [droneWorn, mkDrone]

/-! ## Claim C2 -/

/-- The weather state straight out of `WeatherSimulator.__init__` for the
tiny region: one grid cell, no forecast yet (the background update thread
has not run). -/
noncomputable def wsNoForecast : WeatherState :=
  { wsOne with forecast_data := [] }

/-- `fleetLow` before any weather update produced a forecast. -/
noncomputable def fleetNoForecast : FleetState :=
  { fleetLow with weather := wsNoForecast }

theorem fleetNoForecast_weather_data :
    fleetNoForecast.weatherDataForRoute = [] := by
  unfold FleetState.weatherDataForRoute
  norm_num [fleetNoForecast, fleetLow, wsNoForecast, wsOne, truncQ, intRange]

theorem fleetNoForecast_available :
    fleetNoForecast.availableDrones = [droneLow] := by
  unfold FleetState.availableDrones
  simp only [fleetNoForecast, fleetLow, List.map_cons, List.map_nil]
  rw [List.filter_cons, if_pos, List.filter_nil]
  exact decide_eq_true ⟨rfl, by norm_num [droneLow, mkDrone]⟩

theorem wsNoForecast_risks (now : ℚ) :
    wsNoForecast.getFlightRisks [(50, 50)] now = [] := by
  unfold WeatherState.getFlightRisks WeatherState.getConditions
  simp [wsNoForecast, List.enum, List.enumFrom, List.filterMap]

/-- Claim C2, counterexample: on a fleet state whose weather simulator
has not yet produced any forecast (`forecast_data` empty — the state
`FleetManager.__init__` leaves before the background update thread
runs), the one available drone gets a route, but every risk lookup
returns `None`, the risk list is empty, and `_calculate_route_score`
raises `ZeroDivisionError` at `sum(...)/len(risks)` — `assign_delivery`
propagates the exception instead of returning an id or none. -/
theorem c2_counterexample :
    FleetState.assignDelivery fleetNoForecast 2 (50, 50) 1 0 =
      some (.error .zeroDivision) := by
  unfold FleetState.assignDelivery
  rw [fleetNoForecast_available]
  rw [if_neg (by simp)]
  rw [fleetNoForecast_weather_data]
  simp only []
  have hroute : calculateRoute fleetNoForecast.route_optimizer 2
      droneLow.position (50, 50) [] 0 = some [rpSelf 0] := by
    rw [show droneLow.position = ((50 : ℚ), (50 : ℚ)) from rfl]
    exact calculateRoute_self _ rfl (by norm_num [fleetNoForecast, fleetLow])
      1 (50, 50) 0
  have hscore : FleetState.calcRouteScore droneLow [rpSelf 0]
      (fleetNoForecast.weather.getFlightRisks
        ([rpSelf 0].map (·.position)) 0) 1 = .error .zeroDivision := by
    rw [show [rpSelf 0].map (·.position) = [((50 : ℚ), (50 : ℚ))] from rfl]
    rw [show fleetNoForecast.weather = wsNoForecast from rfl,
      wsNoForecast_risks 0]
    unfold FleetState.calcRouteScore
    rw [if_neg (by norm_num [droneLow, mkDrone] :
      ¬ droneLow.battery_level = 0)]
    rfl
  unfold FleetState.assignLoop
  rw [hroute]
  simp only []
  rw [hscore]

/-- Dictionary update hits: rewriting the value stored under a present
key makes the next lookup return the new value. -/
theorem alookup_aupdate_of_mem {κ α : Type _} [DecidableEq κ]
    (l : List (κ × α)) (k : κ) (v : α) (h : k ∈ l.map Prod.fst) :
    alookup (aupdate l k v) k = some v := by
  induction l with
  | nil => simp at h
  | cons e t ih =>
    unfold aupdate alookup
    by_cases hk : e.1 = k
    · rw [List.map_cons, if_pos hk]
      show alookup ((k, v) :: _) k = some v
      unfold alookup
      rw [if_pos rfl]
    · rw [List.map_cons, if_neg hk]
      show alookup (e :: _) k = some v
      rcases List.mem_cons.mp h with h1 | h1
      · exact absurd h1.symm hk
      · unfold alookup
        rw [if_neg hk]
        exact ih h1

theorem availableDrones_mem (st : FleetState) (d : Drone)
    (h : d ∈ st.availableDrones) :
    d ∈ st.drones.map Prod.snd ∧ d.status = .idle ∧
      d.maintenance_score ≥ 80 := by
  unfold FleetState.availableDrones at h
  rw [List.mem_filter] at h
  refine ⟨h.1, ?_⟩
  simpa using h.2

/-- Claim C2, amended: when at least one drone passes the availability
filter, every candidate obtains a route, and every candidate scores
without raising (non-zero battery, non-empty risks — otherwise
`assign_delivery` propagates a `ZeroDivisionError`), `assign_delivery`
returns the winning drone's id, transitions the winner to IN_TRANSIT
(via the spec-modelled `start_delivery`) and persists the route and an
active-delivery record carrying the destination, payload weight and
start time. -/
theorem c2_assign_success (st : FleetState) (fuel : ℕ) (dest : Point)
    (payload : ℚ) (now : ℚ) (routeOf : Drone → List RoutePoint)
    (sc : Drone → ℝ)
    (hids : ∀ kd ∈ st.drones, kd.1 = kd.2.id)
    (hne : st.availableDrones ≠ [])
    (hl : ∀ d ∈ st.availableDrones,
      calculateRoute st.route_optimizer fuel d.position dest
          st.weatherDataForRoute now = some (routeOf d) ∧ routeOf d ≠ [] ∧
        FleetState.calcRouteScore d (routeOf d)
          (st.weather.getFlightRisks ((routeOf d).map (·.position)) now)
          payload = .ok (sc d)) :
    ∃ w st', FleetState.assignDelivery st fuel dest payload now =
        some (.ok (some w.id, st')) ∧
      w ∈ st.availableDrones ∧
      alookup st'.delivery_routes w.id = some (routeOf w) ∧
      alookup st'.active_deliveries w.id =
        some ⟨dest, payload, now, routeOf w⟩ ∧
      ∃ dw, alookup st'.drones w.id = some dw ∧ dw.status = .in_transit ∧
        dw.current_delivery = some ⟨dest, payload⟩ := by
  obtain ⟨d0, rest, hcons⟩ := List.exists_cons_of_ne_nil hne
  have hloop := assignLoop_eval st fuel dest payload st.weatherDataForRoute
    now routeOf sc st.availableDrones none hl
  rw [hcons] at hloop
  rw [List.foldl_cons, show bestStep routeOf sc none d0 =
    some (d0, routeOf d0, sc d0) from rfl] at hloop
  obtain ⟨w, hw, hmem, -, -, -⟩ := foldl_bestStep_argmax routeOf sc rest d0
  rw [hw] at hloop
  have hwmem : w ∈ st.availableDrones := by
    rw [hcons]
    rcases hmem with h | h
    · exact h ▸ List.mem_cons_self d0 rest
    · exact List.mem_cons_of_mem d0 h
  have hidle : w.status = .idle := (availableDrones_mem st w hwmem).2.1
  have hstart : w.startDelivery dest payload =
      ({ w with status := .in_transit,
                current_delivery := some ⟨dest, payload⟩ }, true) := by
    unfold Drone.startDelivery
    rw [if_pos hidle]
  refine ⟨w,
    { st with
      drones := aupdate st.drones w.id
        { w with status := .in_transit,
                 current_delivery := some ⟨dest, payload⟩ }
      delivery_routes := (w.id, routeOf w) :: st.delivery_routes
      active_deliveries :=
        (w.id, ⟨dest, payload, now, routeOf w⟩) :: st.active_deliveries },
    ?_, hwmem, ?_, ?_, ?_⟩
  · unfold FleetState.assignDelivery
    rw [if_neg (by simpa [List.isEmpty_iff] using hne)]
    simp only []
    rw [← hcons] at hloop
    rw [hloop]
    simp only [Option.map_some']
    rw [hstart]
    rfl
  · show alookup ((w.id, routeOf w) :: st.delivery_routes) w.id =
      some (routeOf w)
    unfold alookup
    rw [if_pos rfl]
  · show alookup ((w.id, (⟨dest, payload, now, routeOf w⟩ :
      DeliveryRecord)) :: st.active_deliveries) w.id = _
    unfold alookup
    rw [if_pos rfl]
  · refine ⟨{ w with
        status := .in_transit,
        current_delivery := some ⟨dest, payload⟩ }, ?_, rfl, rfl⟩
    show alookup (aupdate st.drones w.id _) w.id = _
    apply alookup_aupdate_of_mem
    obtain ⟨kd, hkd, hsnd⟩ := List.mem_map.mp (availableDrones_mem st w
      hwmem).1
    have := hids kd hkd
    rw [List.mem_map]
    exact ⟨kd, hkd, by rw [this, hsnd]⟩

/-- Witness for `c2_assign_success`: the `fleetLow` scenario — one
available drone, delivering to its own position, one safe risk entry. -/
theorem c2_assign_success_witness :
    ∃ w st', FleetState.assignDelivery fleetLow 2 (50, 50) 1 0 =
        some (.ok (some w.id, st')) ∧
      w ∈ fleetLow.availableDrones ∧
      alookup st'.delivery_routes w.id = some ((fun _ => [rpSelf 0]) w) ∧
      alookup st'.active_deliveries w.id =
        some ⟨(50, 50), 1, 0, (fun _ => [rpSelf 0]) w⟩ ∧
      ∃ dw, alookup st'.drones w.id = some dw ∧ dw.status = .in_transit ∧
        dw.current_delivery = some ⟨(50, 50), 1⟩ := by
  apply c2_assign_success fleetLow 2 (50, 50) 1 0 (fun _ => [rpSelf 0])
    (fun _ => (97 : ℝ))
  · intro kd hkd
    rw [List.mem_singleton.mp hkd]
    rfl
  · rw [fleetLow_available]
    exact List.cons_ne_nil _ _
  · intro d hd
    rw [fleetLow_available] at hd
    rw [List.mem_singleton.mp hd]
    rw [fleetLow_weather_data]
    refine ⟨?_, by simp, ?_⟩
    · show calculateRoute fleetLow.route_optimizer 2 droneLow.position
        (50, 50) [] 0 = some [rpSelf 0]
      rw [show droneLow.position = ((50 : ℚ), (50 : ℚ)) from rfl]
      exact calculateRoute_self _ rfl (by norm_num [fleetLow]) 1 (50, 50) 0
    · show FleetState.calcRouteScore droneLow [rpSelf 0]
        (fleetLow.weather.getFlightRisks
          ([rpSelf 0].map (·.position)) 0) 1 = .ok 97
      rw [show [rpSelf 0].map (·.position) = [((50 : ℚ), (50 : ℚ))] from rfl]
      rw [fleetLow_risks 0]
      unfold FleetState.calcRouteScore
      simp only [List.tail_cons, List.zip_nil_right, List.map_nil,
        List.sum_nil, List.map_cons, List.sum_cons, List.length_cons,
        List.length_nil]
      rw [if_neg (by norm_num [droneLow, mkDrone] :
        ¬ droneLow.battery_level = 0)]
      rw [if_neg (by norm_num)]
      rw [if_pos zeroCondition_safe]
      show Except.ok _ = _
      norm_num [droneLow, mkDrone]

/-! ## Claim C7: helper lemmas -/

theorem exceptBind_ok {ε α β : Type _} (x : Except ε α) (f : α → Except ε β)
    (b : β) (h : x >>= f = .ok b) : ∃ a, x = .ok a ∧ f a = .ok b := by
  cases x with
  | error e => exact absurd h (by simp [Bind.bind, Except.bind])
  | ok a => exact ⟨a, rfl, by simpa [Bind.bind, Except.bind] using h⟩

theorem alookup_append {κ α : Type _} [DecidableEq κ]
    (l1 l2 : List (κ × α)) (k : κ) :
    alookup (l1 ++ l2) k =
      match alookup l1 k with
      | some v => some v
      | none => alookup l2 k := by
  induction l1 with
  | nil => simp [alookup]
  | cons e t ih =>
    obtain ⟨k0, v⟩ := e
    show alookup ((k0, v) :: (t ++ l2)) k = _
    by_cases hk : k0 = k
    · simp only [alookup, if_pos hk]
    · simp only [alookup, if_neg hk]
      exact ih

theorem alookup_adel_ne {κ α : Type _} [DecidableEq κ]
    (l : List (κ × α)) (k k' : κ) (h : k ≠ k') :
    alookup (adel l k') k = alookup l k := by
  induction l with
  | nil => simp [adel, alookup]
  | cons e t ih =>
    obtain ⟨k0, v⟩ := e
    by_cases he : k0 = k'
    · rw [show adel ((k0, v) :: t) k' = adel t k' by
        simp [adel, List.filter_cons, he]]
      rw [ih]
      simp only [alookup]
      rw [if_neg (by rw [he]; exact fun hc => h hc.symm)]
    · rw [show adel ((k0, v) :: t) k' = (k0, v) :: adel t k' by
        simp [adel, List.filter_cons, he]]
      simp only [alookup]
      by_cases hk : k0 = k
      · rw [if_pos hk, if_pos hk]
      · rw [if_neg hk, if_neg hk]
        exact ih

theorem alookup_adel_self {κ α : Type _} [DecidableEq κ]
    (l : List (κ × α)) (k : κ) : alookup (adel l k) k = none := by
  induction l with
  | nil => simp [adel, alookup]
  | cons e t ih =>
    obtain ⟨k0, v⟩ := e
    by_cases he : k0 = k
    · rw [show adel ((k0, v) :: t) k = adel t k by
        simp [adel, List.filter_cons, he]]
      exact ih
    · rw [show adel ((k0, v) :: t) k = (k0, v) :: adel t k by
        simp [adel, List.filter_cons, he]]
      simp only [alookup]
      rw [if_neg he]
      exact ih

theorem updatePosition_id (d : Drone) (p : Point) (a : Option ℝ)
    (w : Option WeatherArg) (now : ℚ) :
    ((d.updatePosition p a w now).1).id = d.id := by
  unfold Drone.updatePosition
  split_ifs <;>
    first
      | rfl
      | (simp only []
         split_ifs <;>
           simp [Drone.initiateLowBatteryProtocol,
             Drone.updateComponentHealth, Drone.recordTelemetry])

theorem tickElse_ok_facts (base : Point) (now : ℚ)
    (routes : List (String × List RoutePoint))
    (active : List (String × DeliveryRecord)) (d : Drone)
    (r : Drone × List (String × List RoutePoint) ×
      List (String × DeliveryRecord))
    (h : FleetState.tickElse base now routes active d = .ok r) :
    r.1.id = d.id ∧ r.2.1 = routes ∧ r.2.2 = active := by
  unfold FleetState.tickElse at h
  split_ifs at h <;> injection h with h' <;> rw [← h']
  · exact ⟨rfl, rfl, rfl⟩
  · refine ⟨?_, rfl, rfl⟩
    unfold Drone.returnToBase
    exact updatePosition_id ..
  · exact ⟨rfl, rfl, rfl⟩

/-- Facts about a successful `tickOne`: the drone keeps its id, and the
route/delivery tables are untouched at every key other than the drone's
own id. -/
theorem tickOne_ok_facts (base : Point) (opt : RouteOptimizer)
    (wst : WeatherState) (now : ℚ)
    (routes : List (String × List RoutePoint))
    (active : List (String × DeliveryRecord)) (i : String) (d : Drone)
    (r : Drone × List (String × List RoutePoint) ×
      List (String × DeliveryRecord))
    (h : FleetState.tickOne base opt wst now routes active i d = .ok r) :
    r.1.id = d.id ∧ ∀ X, d.id ≠ X →
      alookup r.2.1 X = alookup routes X ∧
        alookup r.2.2 X = alookup active X := by
  unfold FleetState.tickOne at h
  cases hr : alookup routes d.id with
  | none =>
    rw [hr] at h
    simp only [] at h
    obtain ⟨h1, h2, h3⟩ := tickElse_ok_facts _ _ _ _ _ _ h
    exact ⟨h1, fun X _ => ⟨by rw [h2], by rw [h3]⟩⟩
  | some route =>
    rw [hr] at h
    simp only [] at h
    by_cases ht : d.status = .in_transit
    · rw [if_pos ht] at h
      cases ha : alookup active d.id with
      | none =>
        rw [ha] at h
        exact absurd h (by simp)
      | some delivery =>
        rw [ha] at h
        simp only [] at h
        split_ifs at h with hidx
        · cases hp : FleetState.pyGetIdx route
            (truncQ ((now - delivery.start_time) / 120)) with
          | none =>
            rw [hp] at h
            exact absurd h (by simp)
          | some rp =>
            rw [hp] at h
            simp only [] at h
            cases hw : wst.getConditions rp.position none with
            | none =>
              rw [hw] at h
              simp only [] at h
              injection h with h'
              rw [← h']
              exact ⟨updatePosition_id .., fun X _ => ⟨rfl, rfl⟩⟩
            | some c =>
              rw [hw] at h
              simp only [] at h
              split_ifs at h with hsafe <;> injection h with h' <;>
                rw [← h']
              · exact ⟨updatePosition_id .., fun X _ => ⟨rfl, rfl⟩⟩
              · unfold FleetState.handleUnsafeWeather
                simp only []
                split_ifs
                · exact ⟨updatePosition_id .., fun X _ => ⟨rfl, rfl⟩⟩
                · refine ⟨updatePosition_id .., fun X hX => ?_⟩
                  have hd1 : ((d.updatePosition rp.position none none
                      now).1).id = d.id := updatePosition_id ..
                  exact ⟨alookup_adel_ne _ _ _
                      (by rw [hd1]; exact fun hc => hX hc.symm),
                    alookup_adel_ne _ _ _
                      (by rw [hd1]; exact fun hc => hX hc.symm)⟩
        · injection h with h'
          rw [← h']
          exact ⟨rfl, fun X hX =>
            ⟨alookup_adel_ne _ _ _ (fun hc => hX hc.symm),
             alookup_adel_ne _ _ _ (fun hc => hX hc.symm)⟩⟩
    · rw [if_neg ht] at h
      obtain ⟨h1, h2, h3⟩ := tickElse_ok_facts _ _ _ _ _ _ h
      exact ⟨h1, fun X _ => ⟨by rw [h2], by rw [h3]⟩⟩

theorem alookup_append_singleton_hit {κ α : Type _} [DecidableEq κ]
    (l : List (κ × α)) (k : κ) (v : α) (h : alookup l k = none) :
    alookup (l ++ [(k, v)]) k = some v := by
  rw [alookup_append, h]
  simp [alookup]

/-- A run of the tick fold over drones whose key and id differ from `X`
leaves every `X`-keyed lookup unchanged and only appends
non-`X` drone entries. -/
theorem tickFold_other (base : Point) (opt : RouteOptimizer)
    (wst : WeatherState) (now : ℚ) (X : String) :
    ∀ (l : List (String × Drone)) (acc acc' : FleetState.TickAcc),
    (∀ e ∈ l, e.1 ≠ X ∧ e.2.id ≠ X) →
    List.foldlM (FleetState.tickStep base opt wst now) acc l = .ok acc' →
    alookup acc'.1 X = alookup acc.1 X ∧
    alookup acc'.2.1 X = alookup acc.2.1 X ∧
    alookup acc'.2.2 X = alookup acc.2.2 X ∧
    ∃ tail, acc'.1 = acc.1 ++ tail ∧ ∀ e ∈ tail, e.1 ≠ X ∧ e.2.id ≠ X := by
  intro l
  induction l with
  | nil =>
    intro acc acc' _ h
    have : acc = acc' := by
      simpa [List.foldlM, pure, Except.pure] using h
    rw [← this]
    exact ⟨rfl, rfl, rfl, [], by simp, by simp⟩
  | cons e t ih =>
    intro acc acc' hx h
    rw [List.foldlM_cons] at h
    obtain ⟨acc1, hstep, hrest⟩ := exceptBind_ok _ _ _ h
    unfold FleetState.tickStep at hstep
    obtain ⟨r, hone, hpure⟩ := exceptBind_ok _ _ _ hstep
    have hacc1 : acc1 = (acc.1 ++ [(e.1, r.1)], r.2.1, r.2.2) := by
      simpa [pure, Except.pure] using hpure.symm
    obtain ⟨hxe, hxid⟩ := hx e (List.mem_cons_self e t)
    obtain ⟨hid, hdicts⟩ := tickOne_ok_facts _ _ _ _ _ _ _ _ _ hone
    obtain ⟨hd1, hd2⟩ := hdicts X (by rw [← hid] at hxid ⊢; exact hid ▸ hxid)
    obtain ⟨g1, g2, g3, tail', htail', hptail'⟩ :=
      ih acc1 acc' (fun x hx' => hx x (List.mem_cons_of_mem e hx')) hrest
    have hkeep : alookup (acc.1 ++ [(e.1, r.1)]) X = alookup acc.1 X := by
      rw [alookup_append]
      cases hl : alookup acc.1 X with
      | some v => rfl
      | none =>
        simp only [alookup]
        rw [if_neg hxe]
    refine ⟨?_, ?_, ?_, (e.1, r.1) :: tail', ?_, ?_⟩
    · rw [g1, hacc1]
      exact hkeep
    · rw [g2, hacc1]
      exact hd1
    · rw [g3, hacc1]
      exact hd2
    · rw [htail', hacc1]
      simp
    · intro x hx'
      rcases List.mem_cons.mp hx' with h1 | h1
      · rw [h1]
        exact ⟨hxe, by rw [hid]; exact hxid⟩
      · exact hptail' x h1

/-- Claim C7: when a tick finds an IN_TRANSIT drone whose route index
`int(elapsed/120)` is at or past the end of its stored route, the
delivery completes — the stored route and the active-delivery record for
that drone are removed, the drone's status is set back to IDLE and its
current delivery cleared (via the spec-modelled `complete_delivery`) —
and a further (successful) tick leaves that drone and its absent table
entries unchanged. -/
theorem c7_delivery_completion (st : FleetState) (now now2 : ℚ)
    (id : String) (d : Drone) (route : List RoutePoint)
    (rec : DeliveryRecord) (st' st'' : FleetState)
    (hids : ∀ kd ∈ st.drones, kd.1 = kd.2.id)
    (hnodup : (st.drones.map Prod.fst).Nodup)
    (hmem : (id, d) ∈ st.drones)
    (hstatus : d.status = .in_transit)
    (hroute : alookup st.delivery_routes id = some route)
    (hrec : alookup st.active_deliveries id = some rec)
    (hpast : (route.length : ℤ) ≤ truncQ ((now - rec.start_time) / 120))
    (htick : st.updateFleetStatus now = .ok st')
    (htick2 : st'.updateFleetStatus now2 = .ok st'') :
    alookup st'.drones id = some d.completeDelivery ∧
    d.completeDelivery.status = .idle ∧
    d.completeDelivery.current_delivery = none ∧
    alookup st'.delivery_routes id = none ∧
    alookup st'.active_deliveries id = none ∧
    alookup st''.drones id = some d.completeDelivery ∧
    alookup st''.delivery_routes id = none ∧
    alookup st''.active_deliveries id = none := by
  have hdid : id = d.id := hids (id, d) hmem
  obtain ⟨l1, l2, hsplit⟩ := List.append_of_mem hmem
  -- keys facts
  have hnd : ((l1.map Prod.fst) ++ id :: (l2.map Prod.fst)).Nodup := by
    rw [hsplit] at hnodup
    simpa using hnodup
  have hnotin1 : id ∉ l1.map Prod.fst := by
    intro hc
    have := (List.nodup_append.mp hnd).2.2
    exact this hc (List.mem_cons_self id _)
  have hnotin2 : id ∉ l2.map Prod.fst :=
    (List.nodup_cons.mp (List.nodup_append.mp hnd).2.1).1
  have hx1 : ∀ e ∈ l1, e.1 ≠ id ∧ e.2.id ≠ id := by
    intro e he
    have hkey : e.1 ≠ id := fun hc =>
      hnotin1 (hc ▸ List.mem_map_of_mem Prod.fst he)
    have hide : e.1 = e.2.id := hids e (by
      rw [hsplit]; exact List.mem_append_left _ he)
    exact ⟨hkey, hide ▸ hkey⟩
  have hx2 : ∀ e ∈ l2, e.1 ≠ id ∧ e.2.id ≠ id := by
    intro e he
    have hkey : e.1 ≠ id := fun hc =>
      hnotin2 (hc ▸ List.mem_map_of_mem Prod.fst he)
    have hide : e.1 = e.2.id := hids e (by
      rw [hsplit]
      exact List.mem_append_right _ (List.mem_cons_of_mem _ he))
    exact ⟨hkey, hide ▸ hkey⟩
  -- first tick decomposition
  unfold FleetState.updateFleetStatus at htick
  obtain ⟨accf, hfold, hpure⟩ := exceptBind_ok _ _ _ htick
  have hst' : st' =
      { st with
        drones := accf.1
        delivery_routes := accf.2.1
        active_deliveries := accf.2.2 } := by
    simpa [pure, Except.pure] using hpure.symm
  rw [hsplit, List.foldlM_append] at hfold
  obtain ⟨a1, hfold1, hfold2⟩ := exceptBind_ok _ _ _ hfold
  rw [List.foldlM_cons] at hfold2
  obtain ⟨a2, hstep, hfold3⟩ := exceptBind_ok _ _ _ hfold2
  obtain ⟨p1, p2, p3, tail1, htail1, hptail1⟩ :=
    tickFold_other _ _ _ _ id l1 _ _ hx1 hfold1
  -- our drone's step
  unfold FleetState.tickStep at hstep
  obtain ⟨r, hone, hpure2⟩ := exceptBind_ok _ _ _ hstep
  have ha2 : a2 = (a1.1 ++ [(id, r.1)], r.2.1, r.2.2) := by
    simpa [pure, Except.pure] using hpure2.symm
  have hone' : r = (d.completeDelivery, adel a1.2.1 d.id,
      adel a1.2.2 d.id) := by
    unfold FleetState.tickOne at hone
    rw [show alookup a1.2.1 d.id = some route by
      rw [← hdid, p2]; exact hroute] at hone
    simp only [] at hone
    rw [if_pos hstatus] at hone
    rw [show alookup a1.2.2 d.id = some rec by
      rw [← hdid, p3]; exact hrec] at hone
    simp only [] at hone
    rw [if_neg (not_lt.mpr hpast)] at hone
    injection hone with h'
    exact h'.symm
  -- the l2 run
  obtain ⟨q1, q2, q3, tail2, htail2, hptail2⟩ :=
    tickFold_other _ _ _ _ id l2 _ _ hx2 hfold3
  have hacc1 : alookup accf.1 id = some d.completeDelivery := by
    rw [q1, ha2, hone']
    apply alookup_append_singleton_hit
    rw [p1]
    rfl
  have haccR : alookup accf.2.1 id = none := by
    rw [q2, ha2, hone']
    rw [← hdid] at *
    exact alookup_adel_self _ _
  have haccA : alookup accf.2.2 id = none := by
    rw [q3, ha2, hone']
    rw [← hdid] at *
    exact alookup_adel_self _ _
  have hc1 : alookup st'.drones id = some d.completeDelivery := by
    rw [hst']; exact hacc1
  have hc2 : alookup st'.delivery_routes id = none := by
    rw [hst']; exact haccR
  have hc3 : alookup st'.active_deliveries id = none := by
    rw [hst']; exact haccA
  -- second tick
  have hdrones' : st'.drones = tail1 ++ (id, d.completeDelivery) :: tail2 := by
    rw [hst']
    show accf.1 = _
    rw [htail2, ha2, hone', htail1]
    simp
  unfold FleetState.updateFleetStatus at htick2
  obtain ⟨accg, hgold, hgpure⟩ := exceptBind_ok _ _ _ htick2
  have hst'' : st'' =
      { st' with
        drones := accg.1
        delivery_routes := accg.2.1
        active_deliveries := accg.2.2 } := by
    simpa [pure, Except.pure] using hgpure.symm
  rw [hdrones', List.foldlM_append] at hgold
  obtain ⟨b1, hgold1, hgold2⟩ := exceptBind_ok _ _ _ hgold
  rw [List.foldlM_cons] at hgold2
  obtain ⟨b2, hgstep, hgold3⟩ := exceptBind_ok _ _ _ hgold2
  obtain ⟨s1, s2, s3, tailg1, htailg1, hptailg1⟩ :=
    tickFold_other _ _ _ _ id tail1 _ _ hptail1 hgold1
  unfold FleetState.tickStep at hgstep
  obtain ⟨rg, hgone, hgpure2⟩ := exceptBind_ok _ _ _ hgstep
  have hb2 : b2 = (b1.1 ++ [(id, rg.1)], rg.2.1, rg.2.2) := by
    simpa [pure, Except.pure] using hgpure2.symm
  have hcid : d.completeDelivery.id = d.id := rfl
  have hgone' : rg = (d.completeDelivery, b1.2.1, b1.2.2) := by
    unfold FleetState.tickOne at hgone
    rw [show alookup b1.2.1 d.completeDelivery.id = none by
      rw [hcid, ← hdid, s2]
      exact hc2] at hgone
    simp only [] at hgone
    unfold FleetState.tickElse at hgone
    have hds : d.completeDelivery.status = DroneStatus.idle := rfl
    have hnc : ¬(d.completeDelivery.status = DroneStatus.charging) := by
      rw [hds]; decide
    have hnr : ¬(d.completeDelivery.status = DroneStatus.returning) := by
      rw [hds]; decide
    rw [if_neg hnc, if_neg hnr] at hgone
    injection hgone with h'
    exact h'.symm
  obtain ⟨u1, u2, u3, tailg2, htailg2, hptailg2⟩ :=
    tickFold_other _ _ _ _ id tail2 _ _ hptail2 hgold3
  refine ⟨hc1, rfl, rfl, hc2, hc3, ?_, ?_, ?_⟩
  · rw [hst'']
    show alookup accg.1 id = _
    rw [u1, hb2, hgone']
    apply alookup_append_singleton_hit
    rw [s1]
    rfl
  · rw [hst'']
    show alookup accg.2.1 id = none
    rw [u2, hb2, hgone', s2]
    exact hc2
  · rw [hst'']
    show alookup accg.2.2 id = none
    rw [u3, hb2, hgone', s3]
    exact hc3

/-- An in-transit drone used to exercise the delivery-completion branch
of `update_fleet_status`. -/
noncomputable def droneT : Drone :=
  { mkDrone "dt" (0, 0) 0 with status := .in_transit }

/-- The active-delivery record of `droneT`: started at time 0 with a
one-point route. -/
noncomputable def recT : DeliveryRecord := ⟨(0, 0), 1, 0, [rpSelf 0]⟩

/-- A fleet whose only drone is `droneT`, mid-delivery on a one-point
route. -/
noncomputable def fleetT : FleetState :=
  { drones := [("dt", droneT)]
    base_position := (0, 0)
    active_deliveries := [("dt", recT)]
    route_optimizer := {}
    weather := wsOne
    delivery_routes := [("dt", [rpSelf 0])] }

/-- `fleetT` after the tick at t = 240 s completes the delivery. -/
noncomputable def fleetT2 : FleetState :=
  { drones := [("dt", droneT.completeDelivery)]
    base_position := (0, 0)
    active_deliveries := []
    route_optimizer := {}
    weather := wsOne
    delivery_routes := [] }

theorem fleetT_index_past :
    truncQ ((240 - recT.start_time) / 120) = 2 := by
  have h2 : ((240 : ℚ) - recT.start_time) / 120 = 2 := by
    norm_num [recT]
  rw [h2]
  unfold truncQ
  rw [if_pos (by norm_num)]
  rw [show ((2 : ℚ)) = ((2 : ℤ) : ℚ) by norm_num]
  exact Int.floor_intCast 2

theorem fleetT_tickOne :
    FleetState.tickOne fleetT.base_position fleetT.route_optimizer
      fleetT.weather 240 fleetT.delivery_routes fleetT.active_deliveries
      "dt" droneT = .ok (droneT.completeDelivery, [], []) := by
  unfold FleetState.tickOne
  rw [show alookup fleetT.delivery_routes droneT.id = some [rpSelf 0]
    from rfl]
  simp only []
  rw [if_pos (show droneT.status = DroneStatus.in_transit from rfl)]
  rw [show alookup fleetT.active_deliveries droneT.id = some recT from rfl]
  simp only []
  rw [if_neg (show ¬ (truncQ ((240 - recT.start_time) / 120) <
    (([rpSelf 0] : List RoutePoint).length : ℤ)) by
      rw [fleetT_index_past]; norm_num)]
  rfl

theorem fleetT_tick :
    FleetState.updateFleetStatus fleetT 240 = .ok fleetT2 := by
  unfold FleetState.updateFleetStatus
  rw [show fleetT.drones = [("dt", droneT)] from rfl]
  rw [List.foldlM_cons]
  have hstepT : FleetState.tickStep fleetT.base_position
      fleetT.route_optimizer fleetT.weather 240
      ([], fleetT.delivery_routes, fleetT.active_deliveries)
      ("dt", droneT) =
      .ok ([("dt", droneT.completeDelivery)], [], []) := by
    unfold FleetState.tickStep
    rw [show FleetState.tickOne fleetT.base_position fleetT.route_optimizer
      fleetT.weather 240
      (([], fleetT.delivery_routes, fleetT.active_deliveries) :
        FleetState.TickAcc).2.1
      (([], fleetT.delivery_routes, fleetT.active_deliveries) :
        FleetState.TickAcc).2.2
      ("dt", droneT).1 ("dt", droneT).2 =
      .ok (droneT.completeDelivery, [], []) from fleetT_tickOne]
    rfl
  rw [hstepT]
  rfl

theorem fleetT2_tick :
    FleetState.updateFleetStatus fleetT2 360 = .ok fleetT2 := by
  rfl

/-- Claim C7 at a concrete fleet: the tick at 240 s (elapsed index
`trunc(240/120) = 2` at or past the one-point route) completes `droneT`'s
delivery, and the next tick is a no-op for it. -/
theorem c7_delivery_completion_witness :
    alookup fleetT2.drones "dt" = some droneT.completeDelivery ∧
    droneT.completeDelivery.status = .idle ∧
    droneT.completeDelivery.current_delivery = none ∧
    alookup fleetT2.delivery_routes "dt" = none ∧
    alookup fleetT2.active_deliveries "dt" = none ∧
    alookup fleetT2.drones "dt" = some droneT.completeDelivery ∧
    alookup fleetT2.delivery_routes "dt" = none ∧
    alookup fleetT2.active_deliveries "dt" = none :=
  c7_delivery_completion fleetT 240 360 "dt" droneT [rpSelf 0] recT
    fleetT2 fleetT2
    (by
      intro kd hkd
      rw [show fleetT.drones = [("dt", droneT)] from rfl] at hkd
      rw [List.mem_singleton.mp hkd]
      rfl)
    (by rw [show fleetT.drones = [("dt", droneT)] from rfl]; simp)
    (by
      rw [show fleetT.drones = [("dt", droneT)] from rfl]
      exact List.mem_singleton.mpr rfl)
    rfl rfl rfl
    (by rw [fleetT_index_past]; norm_num)
    fleetT_tick fleetT2_tick

/-! ## A* search: invariants and endpoint guarantees -/

theorem foldlMin_mem : ∀ (xs : List HeapItem) (x : HeapItem),
    xs.foldl (fun m a => if itemLt a m then a else m) x ∈ x :: xs := by
  intro xs
  induction xs with
  | nil => intro x; simp
  | cons a t ih =>
    intro x
    rw [List.foldl_cons]
    by_cases hab : itemLt a x
    · rw [if_pos hab]
      rcases List.mem_cons.mp (ih a) with h1 | h1
      · rw [h1]
        exact List.mem_cons_of_mem _ (List.mem_cons_self a t)
      · exact List.mem_cons_of_mem _ (List.mem_cons_of_mem _ h1)
    · rw [if_neg hab]
      rcases List.mem_cons.mp (ih x) with h1 | h1
      · rw [h1]
        exact List.mem_cons_self x (a :: t)
      · exact List.mem_cons_of_mem _ (List.mem_cons_of_mem _ h1)

theorem minItem_mem (x : HeapItem) (xs : List HeapItem) :
    minItem x xs ∈ x :: xs :=
  foldlMin_mem xs x

theorem eraseItem_subset : ∀ (l : List HeapItem) (b x : HeapItem),
    x ∈ eraseItem l b → x ∈ l := by
  intro l
  induction l with
  | nil => intro b x h; exact absurd h (by simp [eraseItem])
  | cons a t ih =>
    intro b x h
    unfold eraseItem at h
    by_cases hab : a = b
    · rw [if_pos hab] at h
      exact List.mem_cons_of_mem _ h
    · rw [if_neg hab] at h
      rcases List.mem_cons.mp h with h1 | h1
      · exact h1 ▸ List.mem_cons_self a t
      · exact List.mem_cons_of_mem _ (ih b x h1)

theorem alookup_cons_self {κ α : Type _} [DecidableEq κ] (k : κ) (v : α)
    (l : List (κ × α)) : alookup ((k, v) :: l) k = some v := by
  simp [alookup]

theorem alookup_cons_ne {κ α : Type _} [DecidableEq κ] (k : κ) (v : α)
    (l : List (κ × α)) (x : κ) (h : k ≠ x) :
    alookup ((k, v) :: l) x = alookup l x := by
  simp only [alookup]
  rw [if_neg h]

theorem alookup_cons_not_none {κ α : Type _} [DecidableEq κ] (k : κ) (v : α)
    (l : List (κ × α)) (x : κ) (h : alookup l x ≠ none) :
    alookup ((k, v) :: l) x ≠ none := by
  by_cases hk : k = x
  · subst hk
    rw [alookup_cons_self]
    simp
  · rw [alookup_cons_ne _ _ _ _ hk]
    exact h

/-- Insertion index in a duplicate-free insertion-ordered list; the
well-founded measure for `came_from` chains. -/
def listIdx {α : Type _} [DecidableEq α] : List α → α → ℕ
  | [], _ => 0
  | a :: t, x => if a = x then 0 else listIdx t x + 1

theorem listIdx_lt_length {α : Type _} [DecidableEq α] :
    ∀ (l : List α) (x : α), x ∈ l → listIdx l x < l.length := by
  intro l
  induction l with
  | nil => intro x h; exact absurd h (List.not_mem_nil x)
  | cons a t ih =>
    intro x h
    show (if a = x then 0 else listIdx t x + 1) < (a :: t).length
    by_cases hax : a = x
    · rw [if_pos hax]
      simp
    · rw [if_neg hax]
      have hxt : x ∈ t := by
        rcases List.mem_cons.mp h with h1 | h1
        · exact absurd h1.symm hax
        · exact h1
      rw [List.length_cons]
      exact Nat.succ_lt_succ (ih x hxt)

theorem listIdx_append_left {α : Type _} [DecidableEq α] :
    ∀ (l t : List α) (x : α), x ∈ l → listIdx (l ++ t) x = listIdx l x := by
  intro l
  induction l with
  | nil => intro t x h; exact absurd h (List.not_mem_nil x)
  | cons a l' ih =>
    intro t x h
    rw [List.cons_append]
    show (if a = x then 0 else listIdx (l' ++ t) x + 1) =
      (if a = x then 0 else listIdx l' x + 1)
    by_cases hax : a = x
    · rw [if_pos hax, if_pos hax]
    · rw [if_neg hax, if_neg hax]
      have hxl : x ∈ l' := by
        rcases List.mem_cons.mp h with h1 | h1
        · exact absurd h1.symm hax
        · exact h1
      rw [ih t x hxl]

theorem listIdx_append_self {α : Type _} [DecidableEq α] :
    ∀ (l : List α) (x : α), x ∉ l → listIdx (l ++ [x]) x = l.length := by
  intro l
  induction l with
  | nil =>
    intro x _
    simp [listIdx]
  | cons a l' ih =>
    intro x h
    have hax : a ≠ x := fun hc => h (hc ▸ List.mem_cons_self a l')
    have hxl : x ∉ l' := fun hc => h (List.mem_cons_of_mem _ hc)
    rw [List.cons_append]
    show (if a = x then 0 else listIdx (l' ++ [x]) x + 1) = (a :: l').length
    rw [if_neg hax, ih x hxl, List.length_cons]

/-- The loop invariant of `_a_star_search` relating `came_from`,
`g_score`, the open queue and the closed set: `start` has g-score 0 and no
parent; every other scored point has a parent; parents are closed, scored,
and strictly earlier in closed-set insertion order than their (closed)
children; every queued and every closed point is scored; g-scores are
non-negative. -/
structure AInv (start : Point) (st : AState) : Prop where
  cf_start : alookup st.cameFrom start = none
  g_start : alookup st.gScore start = some 0
  g_nonneg : ∀ x g, alookup st.gScore x = some g → 0 ≤ g
  g_cf : ∀ x, x ≠ start → alookup st.gScore x ≠ none →
    alookup st.cameFrom x ≠ none
  cf_par : ∀ x p, alookup st.cameFrom x = some p →
    p ∈ st.closedSet ∧ alookup st.gScore p ≠ none ∧
      (x ∈ st.closedSet → listIdx st.closedSet p < listIdx st.closedSet x)
  open_g : ∀ it ∈ st.openSet, alookup st.gScore it.2 ≠ none
  closed_g : ∀ x ∈ st.closedSet, alookup st.gScore x ≠ none

theorem aStarInit_inv (opt : RouteOptimizer) (start endP : Point) :
    AInv start (aStarInit opt start endP) := by
  refine ⟨rfl, alookup_cons_self _ _ _, ?_, ?_, ?_, ?_, ?_⟩
  · intro x g h
    by_cases hs : start = x
    · subst hs
      rw [show (aStarInit opt start endP).gScore = [(start, (0 : ℝ))]
        from rfl, alookup_cons_self] at h
      injection h with h'
      rw [← h']
    · rw [show (aStarInit opt start endP).gScore = [(start, (0 : ℝ))]
        from rfl, alookup_cons_ne _ _ _ _ hs] at h
      cases h
  · intro x hx hne
    rw [show (aStarInit opt start endP).gScore = [(start, (0 : ℝ))]
      from rfl, alookup_cons_ne _ _ _ _ (fun hc => hx hc.symm)] at hne
    exact absurd rfl hne
  · intro x p h
    cases h
  · intro it hit
    rw [show (aStarInit opt start endP).openSet = [((0 : ℝ), start)]
      from rfl, List.mem_singleton] at hit
    rw [hit]
    rw [show ((0 : ℝ), start).2 = start from rfl]
    rw [show (aStarInit opt start endP).gScore = [(start, (0 : ℝ))]
      from rfl, alookup_cons_self]
    simp
  · intro x hx
    exact absurd hx (List.not_mem_nil x)

theorem processNeighbor_inv (opt : RouteOptimizer) (endP current start : Point)
    (st : AState) (neighbor : Point)
    (hc : current ∈ st.closedSet)
    (hinv : AInv start st) :
    AInv start (processNeighbor opt endP current st neighbor) ∧
    (processNeighbor opt endP current st neighbor).closedSet =
      st.closedSet := by
  unfold processNeighbor
  by_cases hmem : neighbor ∈ st.closedSet
  · rw [if_pos hmem]
    exact ⟨hinv, rfl⟩
  · rw [if_neg hmem]
    simp only []
    set tg := (alookup st.gScore current).getD 0 + haversine current neighbor
      with htg
    by_cases hb : (match alookup st.gScore neighbor with
      | none => True
      | some gn => tg < gn)
    · rw [if_pos hb]
      have htg0 : (0 : ℝ) ≤ tg := by
        rw [htg]
        cases hcg : alookup st.gScore current with
        | none =>
          simp only [Option.getD_none]
          have := haversine_nonneg current neighbor
          linarith
        | some gc =>
          simp only [Option.getD_some]
          have h1 := hinv.g_nonneg current gc hcg
          have h2 := haversine_nonneg current neighbor
          linarith
      have hne_start : neighbor ≠ start := by
        intro he
        rw [he, hinv.g_start] at hb
        simp only [] at hb
        linarith
      refine ⟨⟨?_, ?_, ?_, ?_, ?_, ?_, ?_⟩, rfl⟩
      · rw [show ({ st with
            cameFrom := (neighbor, current) :: st.cameFrom
            gScore := (neighbor, tg) :: st.gScore
            fScore := (neighbor, tg + haversine neighbor endP) :: st.fScore
            openSet := st.openSet ++
              [(tg + haversine neighbor endP, neighbor)] } : AState).cameFrom
          = (neighbor, current) :: st.cameFrom from rfl]
        rw [alookup_cons_ne _ _ _ _ hne_start]
        exact hinv.cf_start
      · rw [show ({ st with
            cameFrom := (neighbor, current) :: st.cameFrom
            gScore := (neighbor, tg) :: st.gScore
            fScore := (neighbor, tg + haversine neighbor endP) :: st.fScore
            openSet := st.openSet ++
              [(tg + haversine neighbor endP, neighbor)] } : AState).gScore
          = (neighbor, tg) :: st.gScore from rfl]
        rw [alookup_cons_ne _ _ _ _ hne_start]
        exact hinv.g_start
      · intro x g h
        by_cases hx : neighbor = x
        · subst hx
          rw [show ({ st with
              cameFrom := (neighbor, current) :: st.cameFrom
              gScore := (neighbor, tg) :: st.gScore
              fScore := (neighbor, tg + haversine neighbor endP) :: st.fScore
              openSet := st.openSet ++
                [(tg + haversine neighbor endP, neighbor)] } : AState).gScore
            = (neighbor, tg) :: st.gScore from rfl,
            alookup_cons_self] at h
          injection h with h'
          rw [← h']
          exact htg0
        · rw [show ({ st with
              cameFrom := (neighbor, current) :: st.cameFrom
              gScore := (neighbor, tg) :: st.gScore
              fScore := (neighbor, tg + haversine neighbor endP) :: st.fScore
              openSet := st.openSet ++
                [(tg + haversine neighbor endP, neighbor)] } : AState).gScore
            = (neighbor, tg) :: st.gScore from rfl,
            alookup_cons_ne _ _ _ _ hx] at h
          exact hinv.g_nonneg x g h
      · intro x hx hgx
        by_cases hxn : neighbor = x
        · subst hxn
          rw [show ({ st with
              cameFrom := (neighbor, current) :: st.cameFrom
              gScore := (neighbor, tg) :: st.gScore
              fScore := (neighbor, tg + haversine neighbor endP) :: st.fScore
              openSet := st.openSet ++
                [(tg + haversine neighbor endP, neighbor)] } : AState).cameFrom
            = (neighbor, current) :: st.cameFrom from rfl,
            alookup_cons_self]
          simp
        · rw [show ({ st with
              cameFrom := (neighbor, current) :: st.cameFrom
              gScore := (neighbor, tg) :: st.gScore
              fScore := (neighbor, tg + haversine neighbor endP) :: st.fScore
              openSet := st.openSet ++
                [(tg + haversine neighbor endP, neighbor)] } : AState).gScore
            = (neighbor, tg) :: st.gScore from rfl,
            alookup_cons_ne _ _ _ _ hxn] at hgx
          rw [show ({ st with
              cameFrom := (neighbor, current) :: st.cameFrom
              gScore := (neighbor, tg) :: st.gScore
              fScore := (neighbor, tg + haversine neighbor endP) :: st.fScore
              openSet := st.openSet ++
                [(tg + haversine neighbor endP, neighbor)] } : AState).cameFrom
            = (neighbor, current) :: st.cameFrom from rfl,
            alookup_cons_ne _ _ _ _ hxn]
          exact hinv.g_cf x hx hgx
      · intro x p h
        by_cases hxn : neighbor = x
        · subst hxn
          rw [show ({ st with
              cameFrom := (neighbor, current) :: st.cameFrom
              gScore := (neighbor, tg) :: st.gScore
              fScore := (neighbor, tg + haversine neighbor endP) :: st.fScore
              openSet := st.openSet ++
                [(tg + haversine neighbor endP, neighbor)] } : AState).cameFrom
            = (neighbor, current) :: st.cameFrom from rfl,
            alookup_cons_self] at h
          injection h with h'
          refine ⟨h' ▸ hc, ?_, ?_⟩
          · exact alookup_cons_not_none _ _ _ _
              (h' ▸ hinv.closed_g current hc)
          · intro hxc
            exact absurd hxc hmem
        · rw [show ({ st with
              cameFrom := (neighbor, current) :: st.cameFrom
              gScore := (neighbor, tg) :: st.gScore
              fScore := (neighbor, tg + haversine neighbor endP) :: st.fScore
              openSet := st.openSet ++
                [(tg + haversine neighbor endP, neighbor)] } : AState).cameFrom
            = (neighbor, current) :: st.cameFrom from rfl,
            alookup_cons_ne _ _ _ _ hxn] at h
          obtain ⟨h1, h2, h3⟩ := hinv.cf_par x p h
          exact ⟨h1, alookup_cons_not_none _ _ _ _ h2, h3⟩
      · intro it hit
        rw [show ({ st with
            cameFrom := (neighbor, current) :: st.cameFrom
            gScore := (neighbor, tg) :: st.gScore
            fScore := (neighbor, tg + haversine neighbor endP) :: st.fScore
            openSet := st.openSet ++
              [(tg + haversine neighbor endP, neighbor)] } : AState).openSet
          = st.openSet ++ [(tg + haversine neighbor endP, neighbor)]
          from rfl] at hit
        rcases List.mem_append.mp hit with h1 | h1
        · exact alookup_cons_not_none _ _ _ _ (hinv.open_g it h1)
        · rw [List.mem_singleton.mp h1]
          rw [show ((tg + haversine neighbor endP, neighbor) : HeapItem).2
            = neighbor from rfl]
          rw [alookup_cons_self]
          simp
      · intro x hx
        exact alookup_cons_not_none _ _ _ _ (hinv.closed_g x hx)
    · rw [if_neg hb]
      exact ⟨hinv, rfl⟩

theorem foldl_pn_inv (opt : RouteOptimizer) (endP start current : Point) :
    ∀ (ns : List Point) (st : AState),
    current ∈ st.closedSet → AInv start st →
    AInv start (ns.foldl (processNeighbor opt endP current) st) := by
  intro ns
  induction ns with
  | nil => intro st _ h2; exact h2
  | cons a t ih =>
    intro st h1 h2
    rw [List.foldl_cons]
    obtain ⟨hinv', hcl⟩ := processNeighbor_inv opt endP current start st a h1 h2
    exact ih (processNeighbor opt endP current st a) (hcl ▸ h1) hinv'

/-- The `while open_set` loop of `_a_star_search` returns only in two
ways: the queue is empty (failure `[]`), or the popped minimum lies within
one grid cell of the target (a reconstructed path). -/
theorem aStarStep_inl (opt : RouteOptimizer) (endP : Point) (st : AState)
    (r : List Point) (h : aStarStep opt endP st = Sum.inl r) :
    (st.openSet = [] ∧ r = []) ∨
    (∃ x xs, st.openSet = x :: xs ∧
      haversine (minItem x xs).2 endP < (opt.grid_size : ℝ) ∧
      r = reconstructPath st.cameFrom st.closedSet (minItem x xs).2) := by
  unfold aStarStep at h
  cases hop : st.openSet with
  | nil =>
    rw [hop] at h
    simp only [] at h
    injection h with h'
    exact Or.inl ⟨rfl, h'.symm⟩
  | cons x xs =>
    rw [hop] at h
    simp only [] at h
    by_cases hgoal : haversine (minItem x xs).2 endP < (opt.grid_size : ℝ)
    · rw [if_pos hgoal] at h
      injection h with h'
      exact Or.inr ⟨x, xs, rfl, hgoal, h'.symm⟩
    · rw [if_neg hgoal] at h
      exact Sum.noConfusion h

theorem aStarStep_inr_inv (opt : RouteOptimizer) (endP start : Point)
    (st st' : AState) (hinv : AInv start st)
    (h : aStarStep opt endP st = Sum.inr st') : AInv start st' := by
  unfold aStarStep at h
  cases hop : st.openSet with
  | nil =>
    rw [hop] at h
    simp only [] at h
    exact Sum.noConfusion h
  | cons x xs =>
    rw [hop] at h
    simp only [] at h
    by_cases hgoal : haversine (minItem x xs).2 endP < (opt.grid_size : ℝ)
    · rw [if_pos hgoal] at h
      exact Sum.noConfusion h
    · rw [if_neg hgoal] at h
      injection h with h'
      rw [← h']
      set current := (minItem x xs).2 with hcur
      set closed' := if current ∈ st.closedSet then st.closedSet
        else st.closedSet ++ [current] with hcl
      have hgcur : alookup st.gScore current ≠ none := by
        apply hinv.open_g
        rw [hop]
        exact minItem_mem x xs
      have hccur : current ∈ closed' := by
        rw [hcl]
        split_ifs with hm
        · exact hm
        · exact List.mem_append_right _ (List.mem_singleton.mpr rfl)
      have hst₁ : AInv start { st with
          openSet := eraseItem (x :: xs) (minItem x xs)
          closedSet := closed' } := by
        refine ⟨hinv.cf_start, hinv.g_start, hinv.g_nonneg, hinv.g_cf,
          ?_, ?_, ?_⟩
        · intro xx p hxp
          obtain ⟨h1, h2, h3⟩ := hinv.cf_par xx p hxp
          show p ∈ closed' ∧ _ ∧ (xx ∈ closed' →
            listIdx closed' p < listIdx closed' xx)
          rw [hcl]
          split_ifs with hm
          · exact ⟨h1, h2, h3⟩
          · refine ⟨List.mem_append_left _ h1, h2, ?_⟩
            intro hxc
            rcases List.mem_append.mp hxc with hx1 | hx1
            · rw [listIdx_append_left _ _ _ h1, listIdx_append_left _ _ _ hx1]
              exact h3 hx1
            · rw [List.mem_singleton.mp hx1]
              rw [listIdx_append_left _ _ _ h1, listIdx_append_self _ _ hm]
              exact listIdx_lt_length _ _ h1
        · intro it hit
          apply hinv.open_g
          rw [hop]
          exact eraseItem_subset _ _ _ hit
        · intro xx hxx
          show alookup st.gScore xx ≠ none
          rw [hcl] at hxx
          by_cases hm : current ∈ st.closedSet
          · rw [if_pos hm] at hxx
            exact hinv.closed_g xx hxx
          · rw [if_neg hm] at hxx
            rcases List.mem_append.mp hxx with h1 | h1
            · exact hinv.closed_g xx h1
            · rw [List.mem_singleton.mp h1]
              exact hgcur
      exact foldl_pn_inv opt endP start current _ _ hccur hst₁

/-- Following the current `came_from` bindings from a closed point
terminates at `start`: parents sit strictly earlier in closed-set
insertion order. -/
theorem reconstructGo_chain (cf : List (Point × Point)) (closed : List Point)
    (start : Point)
    (hstart : alookup cf start = none)
    (hdom : ∀ x ∈ closed, x ≠ start → alookup cf x ≠ none)
    (hstep : ∀ x p, alookup cf x = some p → p ∈ closed ∧
      (x ∈ closed → listIdx closed p < listIdx closed x)) :
    ∀ (n : ℕ) (x : Point) (path : List Point), x ∈ closed →
    listIdx closed x < n →
    ∃ l, reconstructGo n cf x path = path ++ l ∧
      ((x = start ∧ l = []) ∨ (l ≠ [] ∧ l.getLast? = some start)) := by
  intro n
  induction n with
  | zero => intro x path _ hlt; exact absurd hlt (Nat.not_lt_zero _)
  | succ m ih =>
    intro x path hx hlt
    by_cases hxs : x = start
    · subst hxs
      refine ⟨[], ?_, Or.inl ⟨rfl, rfl⟩⟩
      rw [List.append_nil]
      rw [show reconstructGo (m + 1) cf x path =
        (match alookup cf x with
         | none => path
         | some q => reconstructGo m cf q (path ++ [q])) from rfl]
      rw [hstart]
    · obtain ⟨p, hp⟩ := Option.ne_none_iff_exists'.mp (hdom x hx hxs)
      obtain ⟨hpc, hplt⟩ := hstep x p hp
      have hstep1 : reconstructGo (m + 1) cf x path =
          reconstructGo m cf p (path ++ [p]) := by
        rw [show reconstructGo (m + 1) cf x path =
          (match alookup cf x with
           | none => path
           | some q => reconstructGo m cf q (path ++ [q])) from rfl]
        rw [hp]
      have hm : listIdx closed p < m :=
        lt_of_lt_of_le (hplt hx) (Nat.lt_succ_iff.mp hlt)
      obtain ⟨l', heq, hcase⟩ := ih p (path ++ [p]) hpc hm
      refine ⟨p :: l', ?_, Or.inr ⟨by simp, ?_⟩⟩
      · rw [hstep1, heq, List.append_assoc, List.singleton_append]
      · rcases hcase with ⟨hps, hl'⟩ | ⟨hl'ne, hl'last⟩
        · rw [hl']
          simp [hps]
        · rcases List.exists_cons_of_ne_nil hl'ne with ⟨b, t, hbt⟩
          rw [hbt, List.getLast?_cons_cons, ← hbt]
          exact hl'last

/-- `_reconstruct_path` under the loop invariant: the rebuilt path starts
at `start` and ends at the point it was called on. -/
theorem reconstructPath_post (cf : List (Point × Point)) (closed : List Point)
    (start current : Point)
    (hstart : alookup cf start = none)
    (hdom : ∀ x ∈ closed, x ≠ start → alookup cf x ≠ none)
    (hstep : ∀ x p, alookup cf x = some p → p ∈ closed ∧
      (x ∈ closed → listIdx closed p < listIdx closed x))
    (hcur : current = start ∨ alookup cf current ≠ none) :
    (reconstructPath cf closed current).head? = some start ∧
    (reconstructPath cf closed current).getLast? = some current := by
  unfold reconstructPath
  rcases hcur with hc | hc
  · subst hc
    have h1 : reconstructGo (closed.length + 1) cf current [current] =
        [current] := by
      rw [show reconstructGo (closed.length + 1) cf current [current] =
        (match alookup cf current with
         | none => [current]
         | some q => reconstructGo closed.length cf q ([current] ++ [q]))
        from rfl]
      rw [hstart]
    rw [h1]
    constructor <;> simp
  · obtain ⟨p, hp⟩ := Option.ne_none_iff_exists'.mp hc
    obtain ⟨hpc, _⟩ := hstep current p hp
    have h1 : reconstructGo (closed.length + 1) cf current [current] =
        reconstructGo closed.length cf p [current, p] := by
      rw [show reconstructGo (closed.length + 1) cf current [current] =
        (match alookup cf current with
         | none => [current]
         | some q => reconstructGo closed.length cf q ([current] ++ [q]))
        from rfl]
      rw [hp]
      rfl
    obtain ⟨l, heq, hcase⟩ := reconstructGo_chain cf closed start hstart hdom
      hstep closed.length p [current, p] hpc (listIdx_lt_length closed p hpc)
    rw [h1, heq]
    rcases hcase with ⟨hps, hl⟩ | ⟨hlne, hlast⟩
    · rw [hl, hps]
      constructor <;> simp
    · constructor
      · rw [List.head?_reverse]
        rcases List.exists_cons_of_ne_nil hlne with ⟨b, t, hbt⟩
        rw [hbt]
        rw [show ([current, p] ++ b :: t) = current :: p :: b :: t from rfl]
        rw [List.getLast?_cons_cons, List.getLast?_cons_cons, ← hbt]
        exact hlast
      · rw [List.getLast?_reverse]
        simp

theorem aStarLoop_post (opt : RouteOptimizer) (endP start : Point) :
    ∀ (fuel : ℕ) (st : AState) (p : List Point), AInv start st →
    aStarLoop opt endP fuel st = some p →
    p = [] ∨ (p.head? = some start ∧ ∃ c, p.getLast? = some c ∧
      haversine c endP < (opt.grid_size : ℝ)) := by
  intro fuel
  induction fuel with
  | zero => intro st p _ h; cases h
  | succ n ih =>
    intro st p hinv h
    rw [show aStarLoop opt endP (n + 1) st =
      (match aStarStep opt endP st with
       | Sum.inl r => some r
       | Sum.inr st' => aStarLoop opt endP n st') from rfl] at h
    cases hstep : aStarStep opt endP st with
    | inl r =>
      rw [hstep] at h
      simp only [] at h
      injection h with h'
      rcases aStarStep_inl opt endP st r hstep with ⟨_, hr⟩ | ⟨x, xs, hop, hgoal, hr⟩
      · left
        rw [← h', hr]
      · right
        set current := (minItem x xs).2 with hcur
        have hgc : alookup st.gScore current ≠ none := by
          apply hinv.open_g
          rw [hop]
          exact minItem_mem x xs
        have hpost := reconstructPath_post st.cameFrom st.closedSet start
          current hinv.cf_start
          (fun y hy hys => hinv.g_cf y hys (hinv.closed_g y hy))
          (fun y q hq => ⟨(hinv.cf_par y q hq).1, (hinv.cf_par y q hq).2.2⟩)
          (by
            by_cases hcs : current = start
            · exact Or.inl hcs
            · exact Or.inr (hinv.g_cf current hcs hgc))
        rw [← h', hr]
        exact ⟨hpost.1, current, hpost.2, hgoal⟩
    | inr st' =>
      rw [hstep] at h
      simp only [] at h
      exact ih st' p (aStarStep_inr_inv opt endP start st st' hinv hstep) h

/-- `_a_star_search` postcondition: any returned path is either the
failure value `[]` or starts at `start` and ends within one grid cell of
the target. -/
theorem aStar_post (opt : RouteOptimizer) (fuel : ℕ) (s e : Point)
    (p : List Point) (h : aStarSearch opt fuel s e = some p) :
    p = [] ∨ (p.head? = some s ∧ ∃ c, p.getLast? = some c ∧
      haversine c e < (opt.grid_size : ℝ)) :=
  aStarLoop_post opt e s fuel _ p (aStarInit_inv opt s e) h

theorem aStarLoop_mono (opt : RouteOptimizer) (endP : Point) :
    ∀ (n m : ℕ) (st : AState) (p : List Point), n ≤ m →
    aStarLoop opt endP n st = some p → aStarLoop opt endP m st = some p := by
  intro n
  induction n with
  | zero => intro m st p _ h; cases h
  | succ k ih =>
    intro m st p hnm h
    obtain ⟨m', rfl⟩ : ∃ m', m = m' + 1 := ⟨m - 1, by omega⟩
    rw [show aStarLoop opt endP (k + 1) st =
      (match aStarStep opt endP st with
       | Sum.inl r => some r
       | Sum.inr st' => aStarLoop opt endP k st') from rfl] at h
    rw [show aStarLoop opt endP (m' + 1) st =
      (match aStarStep opt endP st with
       | Sum.inl r => some r
       | Sum.inr st' => aStarLoop opt endP m' st') from rfl]
    cases hstep : aStarStep opt endP st with
    | inl r =>
      rw [hstep] at h
      simp only [] at h ⊢
      exact h
    | inr st' =>
      rw [hstep] at h
      simp only [] at h ⊢
      exact ih m' st' p (by omega) h

/-- The A* loop has no iteration budget: a result obtained with some
fuel persists under any larger fuel (the fuel is an artifact of the
embedding, not of the Python `while open_set` loop). -/
theorem aStarSearch_mono (opt : RouteOptimizer) (n m : ℕ) (s e : Point)
    (p : List Point) (hnm : n ≤ m) (h : aStarSearch opt n s e = some p) :
    aStarSearch opt m s e = some p :=
  aStarLoop_mono opt e n m _ p hnm h

theorem createAltitudeProfile_pos (opt : RouteOptimizer) (path : List Point)
    (now : ℚ) :
    (createAltitudeProfile opt path now).map RoutePoint.position = path := by
  induction path with
  | nil => rfl
  | cons a t ih =>
    unfold createAltitudeProfile at ih ⊢
    rw [List.map_cons, List.map_cons]
    congr 1

theorem getNearestWeather_cons (opt : RouteOptimizer) (pos : Point)
    (w : Point × WeatherCondition) (ws : List (Point × WeatherCondition)) :
    getNearestWeather opt pos (w :: ws) =
      some ((w :: ws).foldl
        (fun best x =>
          if haversine pos x.1 < haversine pos best.1 then x else best)
        w).2 := rfl

theorem optimizeForWeather_pos (opt : RouteOptimizer) :
    ∀ (rps : List RoutePoint) (w : Point × WeatherCondition)
      (ws : List (Point × WeatherCondition)),
    (optimizeForWeather opt rps (w :: ws)).map RoutePoint.position =
      rps.map RoutePoint.position := by
  intro rps
  induction rps with
  | nil => intro w ws; rfl
  | cons a t ih =>
    intro w ws
    unfold optimizeForWeather
    rw [List.filterMap_cons]
    rw [getNearestWeather_cons opt a.position w ws]
    simp only []
    rw [List.map_cons, List.map_cons]
    congr 1
    exact ih w ws

theorem smoothGo_last (opt : RouteOptimizer) :
    ∀ (l : List RoutePoint) (prev : RoutePoint), l ≠ [] →
    smoothGo opt prev l ≠ [] ∧
      (smoothGo opt prev l).getLast? = l.getLast? := by
  intro l
  induction l with
  | nil => intro prev h; exact absurd rfl h
  | cons a t ih =>
    intro prev _
    cases t with
    | nil =>
      constructor <;> simp [smoothGo]
    | cons b t2 =>
      rw [show smoothGo opt prev (a :: b :: t2) =
        (if canSkipPoint opt prev a b then smoothGo opt prev (b :: t2)
         else a :: smoothGo opt a (b :: t2)) from rfl]
      split_ifs with hskip
      · obtain ⟨h1, h2⟩ := ih prev (List.cons_ne_nil _ _)
        exact ⟨h1, h2.trans (List.getLast?_cons_cons).symm⟩
      · obtain ⟨h1, h2⟩ := ih a (List.cons_ne_nil _ _)
        constructor
        · simp
        · rcases List.exists_cons_of_ne_nil h1 with ⟨c, t3, hct⟩
          rw [hct, List.getLast?_cons_cons, ← hct, h2,
            List.getLast?_cons_cons]

theorem smoothPath_ends (opt : RouteOptimizer) (l : List RoutePoint)
    (hne : l ≠ []) :
    (smoothPath opt l).head? = l.head? ∧
      (smoothPath opt l).getLast? = l.getLast? := by
  match l with
  | [] => exact absurd rfl hne
  | [a] => exact ⟨rfl, rfl⟩
  | [a, b] => exact ⟨rfl, rfl⟩
  | a :: b :: c :: t =>
    rw [show smoothPath opt (a :: b :: c :: t) =
      a :: smoothGo opt a (b :: c :: t) from rfl]
    obtain ⟨h1, h2⟩ := smoothGo_last opt (b :: c :: t) a
      (List.cons_ne_nil _ _)
    refine ⟨rfl, ?_⟩
    rcases List.exists_cons_of_ne_nil h1 with ⟨d, t4, hdt⟩
    rw [hdt, List.getLast?_cons_cons, ← hdt, h2]
    exact (List.getLast?_cons_cons).symm

/-- Claim C1 (amended): `calculate_route` has no fallback path — when the
A* search fails it returns the empty list (see the counterexample) — but
every non-empty returned route does start at `start` and end within one
grid cell of `end`: the altitude-profile, weather-optimization and
smoothing stages preserve the first and last positions of the A* path. -/
theorem c1_route_endpoints (opt : RouteOptimizer) (fuel : ℕ) (s e : Point)
    (wd : List (Point × WeatherCondition)) (now : ℚ) (r : List RoutePoint)
    (h : calculateRoute opt fuel s e wd now = some r) (hne : r ≠ []) :
    (∃ rp, r.head? = some rp ∧ rp.position = s) ∧
    (∃ rp, r.getLast? = some rp ∧
      haversine rp.position e < (opt.grid_size : ℝ)) := by
  unfold calculateRoute at h
  cases hsearch : aStarSearch opt fuel s e with
  | none =>
    rw [hsearch] at h
    cases h
  | some q =>
    rw [hsearch] at h
    cases q with
    | nil =>
      simp only [] at h
      injection h with h'
      exact absurd h'.symm hne
    | cons p ps =>
      simp only [] at h
      injection h with h'
      rcases aStar_post opt fuel s e (p :: ps) hsearch with
        hnil | ⟨hhead, c, hlast, hgoal⟩
      · exact absurd hnil (List.cons_ne_nil p ps)
      have hps : p = s := by
        rw [List.head?_cons] at hhead
        injection hhead
      set RPS := (if wd.isEmpty = true
        then createAltitudeProfile opt (p :: ps) now
        else optimizeForWeather opt
          (createAltitudeProfile opt (p :: ps) now) wd) with hRPS
      have hpos : RPS.map RoutePoint.position = p :: ps := by
        rw [hRPS]
        cases wd with
        | nil =>
          have he : ([] : List (Point × WeatherCondition)).isEmpty = true :=
            rfl
          rw [if_pos he]
          exact createAltitudeProfile_pos opt (p :: ps) now
        | cons w ws =>
          have he : ¬ ((w :: ws).isEmpty = true) := by simp
          rw [if_neg he]
          rw [optimizeForWeather_pos opt _ w ws]
          exact createAltitudeProfile_pos opt (p :: ps) now
      have hrne : RPS ≠ [] := by
        intro hcn
        rw [hcn] at hpos
        exact (List.cons_ne_nil p ps) hpos.symm
      obtain ⟨hh, hl⟩ := smoothPath_ends opt RPS hrne
      rw [← h']
      constructor
      · have h2 : RPS.head?.map RoutePoint.position = some p := by
          rw [← List.head?_map, hpos, List.head?_cons]
        rcases Option.map_eq_some'.mp h2 with ⟨rp, hrp, hrppos⟩
        exact ⟨rp, hh.trans hrp, by rw [hrppos, hps]⟩
      · have h2 : RPS.getLast?.map RoutePoint.position = some c := by
          rw [← List.getLast?_map, hpos]
          exact hlast
        rcases Option.map_eq_some'.mp h2 with ⟨rp, hrp, hrppos⟩
        refine ⟨rp, hl.trans hrp, ?_⟩
        rw [hrppos]
        exact hgoal

/-! ## A concrete A* failure: a start enclosed by a no-fly square -/

theorem pipGo_cons_no (x y : ℚ) (p1 p2 : Point) (inside : Bool)
    (rest : List Point)
    (h : ¬ (y > min p1.2 p2.2 ∧ y ≤ max p1.2 p2.2 ∧ x ≤ max p1.1 p2.1)) :
    pipGo x y p1 inside (p2 :: rest) = pipGo x y p2 inside rest := by
  simp only [pipGo]
  rw [if_neg h]

theorem pipGo_cons_toggle_vert (x y : ℚ) (p1 p2 : Point) (inside : Bool)
    (rest : List Point)
    (h : y > min p1.2 p2.2 ∧ y ≤ max p1.2 p2.2 ∧ x ≤ max p1.1 p2.1)
    (hv : p1.1 = p2.1) :
    pipGo x y p1 inside (p2 :: rest) = pipGo x y p2 (!inside) rest := by
  simp only [pipGo]
  rw [if_pos h, if_pos (Or.inl hv)]

/-- The square no-fly zone `±0.002` around the origin, enclosing all eight
grid neighbours of `(0, 0)`. -/
def sqZone : List Point :=
  [(-1/500, -1/500), (-1/500, 1/500), (1/500, 1/500), (1/500, -1/500)]

/-- A route optimizer (all defaults) whose single no-fly zone is
`sqZone`. -/
def polyOpt : RouteOptimizer := { no_fly_zones := [sqZone] }

/-- Every point strictly inside the left/bottom edges and weakly inside
the right/top edges of `sqZone` is classified inside by the even-odd
ray-cast: only the right vertical edge toggles. -/
theorem sq_inside (x y : ℚ) (h1 : -1/500 < x) (h2 : x ≤ 1/500)
    (h3 : -1/500 < y) (h4 : y ≤ 1/500) :
    pointInPolygon x y sqZone = true := by
  have h0 : pointInPolygon x y sqZone =
      pipGo x y (-1/500, -1/500) false
        [(-1/500, -1/500), (-1/500, 1/500), (1/500, 1/500), (1/500, -1/500),
         (-1/500, -1/500)] := rfl
  rw [h0]
  rw [pipGo_cons_no x y _ _ _ _ (by
    simp only [min_self, max_self]
    rintro ⟨ha, hb, -⟩
    exact absurd hb (not_le.mpr ha))]
  rw [pipGo_cons_no x y ((-1 : ℚ)/500, (-1 : ℚ)/500)
    ((-1 : ℚ)/500, (1 : ℚ)/500) false _ (by
    rintro ⟨-, -, hc⟩
    rw [show max ((-1 : ℚ)/500, (-1 : ℚ)/500).1
      ((-1 : ℚ)/500, (1 : ℚ)/500).1 = -1/500 from by norm_num [max_def]]
      at hc
    linarith)]
  rw [pipGo_cons_no x y ((-1 : ℚ)/500, (1 : ℚ)/500)
    ((1 : ℚ)/500, (1 : ℚ)/500) false _ (by
    rintro ⟨ha, -, -⟩
    rw [show min ((-1 : ℚ)/500, (1 : ℚ)/500).2
      ((1 : ℚ)/500, (1 : ℚ)/500).2 = 1/500 from by norm_num [min_def]]
      at ha
    linarith)]
  rw [pipGo_cons_toggle_vert x y ((1 : ℚ)/500, (1 : ℚ)/500)
    ((1 : ℚ)/500, (-1 : ℚ)/500) false _ (by
    refine ⟨?_, ?_, ?_⟩
    · rw [show min ((1 : ℚ)/500, (1 : ℚ)/500).2
        ((1 : ℚ)/500, (-1 : ℚ)/500).2 = -1/500 from by norm_num [min_def]]
      exact h3
    · rw [show max ((1 : ℚ)/500, (1 : ℚ)/500).2
        ((1 : ℚ)/500, (-1 : ℚ)/500).2 = 1/500 from by norm_num [max_def]]
      exact h4
    · rw [show max ((1 : ℚ)/500, (1 : ℚ)/500).1
        ((1 : ℚ)/500, (-1 : ℚ)/500).1 = 1/500 from by norm_num [max_def]]
      exact h2) rfl]
  rw [pipGo_cons_no x y ((1 : ℚ)/500, (-1 : ℚ)/500)
    ((-1 : ℚ)/500, (-1 : ℚ)/500) (!false) [] (by
    rintro ⟨ha, hb, -⟩
    rw [show min ((1 : ℚ)/500, (-1 : ℚ)/500).2
      ((-1 : ℚ)/500, (-1 : ℚ)/500).2 = -1/500 from by norm_num [min_def]]
      at ha
    rw [show max ((1 : ℚ)/500, (-1 : ℚ)/500).2
      ((-1 : ℚ)/500, (-1 : ℚ)/500).2 = -1/500 from by norm_num [max_def]]
      at hb
    exact absurd hb (not_le.mpr ha))]
  rfl

theorem sq_blocks (a b : ℚ) (h1 : -1/500 < a) (h2 : a ≤ 1/500)
    (h3 : -1/500 < b) (h4 : b ≤ 1/500) :
    isInNoFlyZone polyOpt.no_fly_zones (a, b) = true := by
  rw [show polyOpt.no_fly_zones = [sqZone] from rfl]
  rw [show isInNoFlyZone [sqZone] (a, b) =
    (pointInPolygon a b sqZone || false) from rfl]
  rw [sq_inside a b h1 h2 h3 h4]
  rfl

theorem polyOpt_neighbors : getNeighbors polyOpt ((0 : ℚ), (0 : ℚ)) = [] := by
  have hb1 : isInNoFlyZone polyOpt.no_fly_zones (-(1/1000), -(1/1000)) = true :=
    sq_blocks _ _ (by norm_num) (by norm_num) (by norm_num) (by norm_num)
  have hb2 : isInNoFlyZone polyOpt.no_fly_zones (-(1/1000), 0) = true :=
    sq_blocks _ _ (by norm_num) (by norm_num) (by norm_num) (by norm_num)
  have hb3 : isInNoFlyZone polyOpt.no_fly_zones (-(1/1000), 1/1000) = true :=
    sq_blocks _ _ (by norm_num) (by norm_num) (by norm_num) (by norm_num)
  have hb4 : isInNoFlyZone polyOpt.no_fly_zones (0, -(1/1000)) = true :=
    sq_blocks _ _ (by norm_num) (by norm_num) (by norm_num) (by norm_num)
  have hb5 : isInNoFlyZone polyOpt.no_fly_zones (0, 1/1000) = true :=
    sq_blocks _ _ (by norm_num) (by norm_num) (by norm_num) (by norm_num)
  have hb6 : isInNoFlyZone polyOpt.no_fly_zones (1/1000, -(1/1000)) = true :=
    sq_blocks _ _ (by norm_num) (by norm_num) (by norm_num) (by norm_num)
  have hb7 : isInNoFlyZone polyOpt.no_fly_zones (1/1000, 0) = true :=
    sq_blocks _ _ (by norm_num) (by norm_num) (by norm_num) (by norm_num)
  have hb8 : isInNoFlyZone polyOpt.no_fly_zones (1/1000, 1/1000) = true :=
    sq_blocks _ _ (by norm_num) (by norm_num) (by norm_num) (by norm_num)
  unfold getNeighbors
  rw [show [-polyOpt.grid_size, 0, polyOpt.grid_size] =
    ([-(1/1000), 0, 1/1000] : List ℚ) from by norm_num [polyOpt]]
  simp only [List.flatMap_cons, List.flatMap_nil, List.filterMap_cons,
    List.filterMap_nil]
  norm_num [hb1, hb2, hb3, hb4, hb5, hb6, hb7, hb8]

theorem equator90_far :
    ¬ (haversine ((0 : ℚ), (0 : ℚ)) ((0 : ℚ), (90 : ℚ)) <
      (polyOpt.grid_size : ℝ)) := by
  rw [haversine_equator90]
  rw [show ((polyOpt.grid_size : ℚ) : ℝ) = 1/1000 from by
    norm_num [polyOpt]]
  intro hc
  have h3 := Real.pi_gt_three
  nlinarith

/-- On `polyOpt`, starting from the enclosed origin towards `(0, 90)`:
the first loop iteration pops the start (not within one grid cell of the
target), closes it and finds no admissible neighbour; the second finds
the open set empty and returns the failure value `[]`. -/
theorem aStarPoly_eval :
    aStarSearch polyOpt 2 ((0 : ℚ), (0 : ℚ)) ((0 : ℚ), (90 : ℚ)) =
      some [] := by
  have hstep1 : aStarStep polyOpt ((0 : ℚ), (90 : ℚ))
      (aStarInit polyOpt ((0 : ℚ), (0 : ℚ)) ((0 : ℚ), (90 : ℚ))) =
      Sum.inr ⟨[], [], [(((0 : ℚ), (0 : ℚ)), 0)],
        [(((0 : ℚ), (0 : ℚ)),
          haversine ((0 : ℚ), (0 : ℚ)) ((0 : ℚ), (90 : ℚ)))],
        [((0 : ℚ), (0 : ℚ))]⟩ := by
    unfold aStarStep aStarInit
    simp only [minItem, List.foldl_nil]
    rw [if_neg equator90_far]
    rw [if_neg (List.not_mem_nil _)]
    rw [show eraseItem [((0 : ℝ), ((0 : ℚ), (0 : ℚ)))]
      ((0 : ℝ), ((0 : ℚ), (0 : ℚ))) = [] from by
        unfold eraseItem
        rw [if_pos rfl]]
    rw [polyOpt_neighbors]
    rfl
  have hstep2 : aStarStep polyOpt ((0 : ℚ), (90 : ℚ))
      ⟨[], [], [(((0 : ℚ), (0 : ℚ)), 0)],
        [(((0 : ℚ), (0 : ℚ)),
          haversine ((0 : ℚ), (0 : ℚ)) ((0 : ℚ), (90 : ℚ)))],
        [((0 : ℚ), (0 : ℚ))]⟩ = Sum.inl [] := rfl
  show aStarLoop polyOpt ((0 : ℚ), (90 : ℚ)) 2
    (aStarInit polyOpt ((0 : ℚ), (0 : ℚ)) ((0 : ℚ), (90 : ℚ))) = some []
  rw [show (2 : ℕ) = 1 + 1 from rfl]
  rw [show aStarLoop polyOpt ((0 : ℚ), (90 : ℚ)) (1 + 1)
      (aStarInit polyOpt ((0 : ℚ), (0 : ℚ)) ((0 : ℚ), (90 : ℚ))) =
    (match aStarStep polyOpt ((0 : ℚ), (90 : ℚ))
        (aStarInit polyOpt ((0 : ℚ), (0 : ℚ)) ((0 : ℚ), (90 : ℚ))) with
     | Sum.inl r => some r
     | Sum.inr st' => aStarLoop polyOpt ((0 : ℚ), (90 : ℚ)) 1 st')
    from rfl]
  rw [hstep1]
  simp only []
  rw [show (1 : ℕ) = 0 + 1 from rfl]
  rw [show aStarLoop polyOpt ((0 : ℚ), (90 : ℚ)) (0 + 1)
      (⟨[], [], [(((0 : ℚ), (0 : ℚ)), 0)],
        [(((0 : ℚ), (0 : ℚ)),
          haversine ((0 : ℚ), (0 : ℚ)) ((0 : ℚ), (90 : ℚ)))],
        [((0 : ℚ), (0 : ℚ))]⟩ : AState) =
    (match aStarStep polyOpt ((0 : ℚ), (90 : ℚ))
        (⟨[], [], [(((0 : ℚ), (0 : ℚ)), 0)],
          [(((0 : ℚ), (0 : ℚ)),
            haversine ((0 : ℚ), (0 : ℚ)) ((0 : ℚ), (90 : ℚ)))],
          [((0 : ℚ), (0 : ℚ))]⟩ : AState) with
     | Sum.inl r => some r
     | Sum.inr st' => aStarLoop polyOpt ((0 : ℚ), (90 : ℚ)) 0 st')
    from rfl]
  rw [hstep2]

/-- Claim C1, counterexample: with the start `(0, 0)` enclosed by the
no-fly square `sqZone` and the far target `(0, 90)`, `calculate_route`
returns the empty list — there is no guaranteed 3-point fallback path and
no non-empty result whose first point is the start and last point is the
end; A* failure surfaces to the caller as `[]`. -/
theorem c1_counterexample :
    calculateRoute polyOpt 1000 ((0 : ℚ), (0 : ℚ)) ((0 : ℚ), (90 : ℚ)) []
      0 = some [] := by
  unfold calculateRoute
  rw [aStarSearch_mono polyOpt 2 1000 _ _ _ (by norm_num) aStarPoly_eval]

/-- Claim C1 at a concrete input: the instant route from `(50, 50)` to
itself is non-empty, starts at the start and ends within one grid cell of
the end. -/
theorem c1_route_endpoints_witness :
    (∃ rp, ([⟨((50 : ℚ), (50 : ℚ)),
        ((({} : RouteOptimizer).min_altitude : ℚ) : ℝ), (0 : ℚ), none⟩] :
        List RoutePoint).head? = some rp ∧
      rp.position = ((50 : ℚ), (50 : ℚ))) ∧
    (∃ rp, ([⟨((50 : ℚ), (50 : ℚ)),
        ((({} : RouteOptimizer).min_altitude : ℚ) : ℝ), (0 : ℚ), none⟩] :
        List RoutePoint).getLast? = some rp ∧
      haversine rp.position ((50 : ℚ), (50 : ℚ)) <
        ((({} : RouteOptimizer).grid_size : ℚ) : ℝ)) :=
  c1_route_endpoints {} 1 ((50 : ℚ), (50 : ℚ)) ((50 : ℚ), (50 : ℚ)) [] 0
    [⟨((50 : ℚ), (50 : ℚ)), ((({} : RouteOptimizer).min_altitude : ℚ) : ℝ),
      (0 : ℚ), none⟩]
    (calculateRoute_self {} rfl (by norm_num) 0 ((50 : ℚ), (50 : ℚ)) 0)
    (by simp)

/-- Claim C5 (amended): the A* loop has no iteration budget.  It returns
only when the popped minimum is within one grid cell of the target (a
reconstructed path) or when the open set is exhausted (the failure value
`[]`); and any result is stable under giving the loop more fuel — the
stopping point is determined by the queue, not by a 1000-expansion
cap. -/
theorem c5_termination_semantics (opt : RouteOptimizer) (endP : Point) :
    (∀ (st : AState) (r : List Point), aStarStep opt endP st = Sum.inl r →
      (st.openSet = [] ∧ r = []) ∨
      (∃ x xs, st.openSet = x :: xs ∧
        haversine (minItem x xs).2 endP < (opt.grid_size : ℝ) ∧
        r = reconstructPath st.cameFrom st.closedSet (minItem x xs).2)) ∧
    (∀ (n m : ℕ) (s : Point) (p : List Point), n ≤ m →
      aStarSearch opt n s endP = some p →
      aStarSearch opt m s endP = some p) :=
  ⟨aStarStep_inl opt endP,
   fun n m s p hnm h => aStarSearch_mono opt n m s endP p hnm h⟩

/-- Claim C5 at a concrete input: the enclosed-start search stops (with
the failure value) after two loop iterations, and giving it fuel 1000
returns the same result. -/
theorem c5_termination_semantics_witness :
    aStarSearch polyOpt 1000 ((0 : ℚ), (0 : ℚ)) ((0 : ℚ), (90 : ℚ)) =
      some [] :=
  (c5_termination_semantics polyOpt ((0 : ℚ), (90 : ℚ))).2 2 1000
    ((0 : ℚ), (0 : ℚ)) [] (by norm_num) aStarPoly_eval

/-- Claim C5, counterexample: on the enclosed start the search fails
after two loop iterations — long before any 1000-expansion budget — with
the goal not reached (the target is thousands of kilometres away), and
fuel 1000 yields the identical failure: the code has no fixed
1000-iteration budget, it stops exactly when the open set empties. -/
theorem c5_counterexample :
    aStarSearch polyOpt 2 ((0 : ℚ), (0 : ℚ)) ((0 : ℚ), (90 : ℚ)) =
        some [] ∧
      aStarSearch polyOpt 1000 ((0 : ℚ), (0 : ℚ)) ((0 : ℚ), (90 : ℚ)) =
        some [] ∧
      ¬ (haversine ((0 : ℚ), (0 : ℚ)) ((0 : ℚ), (90 : ℚ)) <
        (polyOpt.grid_size : ℝ)) :=
  ⟨aStarPoly_eval,
   aStarSearch_mono polyOpt 2 1000 _ _ _ (by norm_num) aStarPoly_eval,
   equator90_far⟩

end DroneFleet
